import Mathlib

/-!
# zap-bot: connection lifecycle of the WhatsApp transcription bot

A shallow embedding of `internal/bot/bot.go` (the `Manager`, `ConnectClient`,
`Disconnect`, `updateStatus`, `eventHandler`, `handleMessages`) and of
`cmd/web/web.go` (`handleConnect`, `handleDisconnect`, `handleStatus`).

Conventions of the embedding:

* `Manager.Status` and `Manager.QrCode` are Go strings and stay Lean strings,
  with the literals of the source.
* `Manager.StartTime` is a Go `time.Time`.  The zero `time.Time` (the value the
  field has in `NewManager`, which nothing in the program ever writes) is
  `none`; a reading `t` of `time.Now()` is `some t`.
* `Manager.Client` is a `*whatsmeow.Client`; `nil` is `none`.  Of the client we
  keep what the program reads: `IsConnected()` and `Store.ID != nil`.
* Everything the external collaborators decide (store errors, connect errors,
  what the QR channel delivers, the clock, download / transcription / send
  results) is an explicit input.
* Calls made on collaborators are recorded in a list, in program order.
-/

namespace ZapBot

/-! ## Data model (`internal/bot/bot.go`, lines 25-42) -/

/-- The part of `*whatsmeow.Client` the program reads. -/
structure Client where
  /-- Result of `IsConnected()`. -/
  connected : Bool
  /-- Truth of `Store.ID != nil`: the device has a prior authenticated session. -/
  hasID : Bool
  deriving DecidableEq, Repr

/-- The `Manager` struct.  The mutex `Mu` is not a field: a critical section is
one atomic step of the embedding. -/
structure Manager where
  Client : Option Client
  Status : String
  QrCode : String
  APIKey : String
  StartTime : Option Nat
  deriving DecidableEq, Repr

/-- `NewManager(apiKey)`. -/
def NewManager (apiKey : String) : Manager :=
  { Client := none, Status := "Disconnected", QrCode := "", APIKey := apiKey,
    StartTime := none }

/-- `(m *Manager) updateStatus(status, qrCode)` (lines 123-128). -/
def Manager.updateStatus (m : Manager) (status qrCode : String) : Manager :=
  { m with Status := status, QrCode := qrCode }

/-- Calls made on the messaging client and on the transcription service. -/
inductive Call where
  | isConnected
  | disconnect
  | download
  | transcribe
  /-- The call `SendMessage` to `recipient` with the reply `text`, quoting
  the message `stanzaID` of `participant`. -/
  | send (recipient text participant stanzaID : String)
  deriving DecidableEq, Repr

/-- The call is a `SendMessage`. -/
def Call.isSend : Call → Bool
  | Call.send _ _ _ _ => true
  | _ => false

/-- `Client.Disconnect()` on the handle: afterwards `IsConnected()` is false. -/
def Client.doDisconnect (c : Client) : Client := { c with connected := false }

/-- `(m *Manager) Disconnect()` (lines 112-121): the new manager and the calls
made on the client.  `m.Client != nil && m.Client.IsConnected()` short-circuits,
so `IsConnected` is called only on a non-nil handle. -/
def Manager.Disconnect (m : Manager) : Manager × List Call :=
  match m.Client with
  | none => (m, [])
  | some c =>
    if c.connected then
      ({ m with Client := some c.doDisconnect, Status := "Disconnected", QrCode := "" },
        [Call.isConnected, Call.disconnect])
    else
      (m, [Call.isConnected])

/-! ## Message handling (`internal/bot/bot.go`, lines 130-179) -/

/-- What `handleMessages` reads of an `*events.Message`. -/
structure Message where
  /-- A `GetAudioMessage()` that is not nil. -/
  hasAudio : Bool
  /-- The text of `v.Info.Sender.String()`. -/
  sender : String
  /-- The stanza id `v.Info.ID`. -/
  id : String
  deriving DecidableEq, Repr

/-- What the collaborators answer during one run of `handleMessages`. -/
structure MsgWorld where
  /-- Result of `client.Download`: `none` is an error. -/
  download : Option (List Nat)
  /-- Result of `groq.TranscribeAudio` on the downloaded bytes: `none` is an error. -/
  transcribe : List Nat → Option String

/-- The reply text of line 162. -/
def messageText (transcript : String) : String :=
  "🎙️ *Transcrição do áudio:*\n\n\"" ++ transcript ++ "\"\n\n_Powered by Cris AI 🤖_"

/-- `handleMessages(ctx, client, v, apiKey)` (lines 143-179): the calls it
makes.  An error of `SendMessage` is only logged. -/
def handleMessages (w : MsgWorld) (v : Message) : List Call :=
  if !v.hasAudio then []
  else
    match w.download with
    | none => [Call.download]
    | some audioData =>
      match w.transcribe audioData with
      | none => [Call.download, Call.transcribe]
      | some transcript =>
        [Call.download, Call.transcribe,
          Call.send v.sender (messageText transcript) v.sender v.id]

/-- The events `eventHandler` receives: the two cases of its type switch and
every other event type. -/
inductive Event where
  | disconnected
  | message (v : Message)
  | other
  deriving DecidableEq, Repr

/-- `(m *Manager) eventHandler(evt)` (lines 130-140): the new manager and the
calls made. -/
def Manager.eventHandler (w : MsgWorld) (m : Manager) : Event → Manager × List Call
  | Event.disconnected => (m.updateStatus "Disconnected" "", [])
  | Event.message v => (m, handleMessages w v)
  | Event.other => (m, [])

/-! ## The status fragment (`cmd/web/web.go`, lines 67-130) -/

/-- The anonymous struct `data` of `handleStatus`. -/
structure StatusData where
  Status : String
  StatusClass : String
  Uptime : String
  ShowQR : Bool
  QrCode : String
  ShowConnectBtn : Bool
  ShowDisconnectBtn : Bool
  deriving DecidableEq, Repr

/-- The `switch` of lines 118-127; a status outside the five leaves the class
at its zero value. -/
def statusClass (status : String) : String :=
  if status = "Connected" then "status-connected"
  else if status = "Disconnected" ∨ status = "Connection Failed" then "status-disconnected"
  else if status = "Waiting for QR Scan" then "status-waiting"
  else if status = "Connecting..." then "status-connecting"
  else ""

/-- The data `handleStatus` builds (lines 96-127).  `uptimeText t` stands for
`time.Since(t).Round(time.Second).String()` at the moment of the request. -/
def statusData (uptimeText : Option Nat → String) (m : Manager) : StatusData :=
  { Status := m.Status
    StatusClass := statusClass m.Status
    Uptime := if m.Status = "Connected" then uptimeText m.StartTime else ""
    ShowQR := decide (m.Status = "Waiting for QR Scan")
    QrCode := m.QrCode
    ShowConnectBtn := decide (m.Status = "Disconnected" ∨ m.Status = "Connection Failed")
    ShowDisconnectBtn := decide (m.Status = "Connected") }

/-- The pieces of the rendered fragment, in template order. -/
inductive Elem where
  | statusText (cls status : String)
  | uptime (text : String)
  | qrImage (qrCode : String)
  | connectBtn
  | disconnectBtn
  deriving DecidableEq, Repr

/-- Execution of `statusTemplate` (lines 72-89) on the data: `{{if .Uptime}}`
is true for a non-empty string. -/
def renderStatus (d : StatusData) : List Elem :=
  [Elem.statusText d.StatusClass d.Status]
    ++ (if d.Uptime ≠ "" then [Elem.uptime d.Uptime] else [])
    ++ (if d.ShowQR then [Elem.qrImage d.QrCode] else [])
    ++ (if d.ShowConnectBtn then [Elem.connectBtn] else [])
    ++ (if d.ShowDisconnectBtn then [Elem.disconnectBtn] else [])

/-- `handleStatus`: the fragment written to the response. -/
def handleStatus (uptimeText : Option Nat → String) (m : Manager) : List Elem :=
  renderStatus (statusData uptimeText m)

/-! ## `ConnectClient` (`internal/bot/bot.go`, lines 44-110) -/

/-- An item of the channel `GetQRChannel` returns (`whatsmeow.QRChannelItem`). -/
structure QRChannelItem where
  Event : String
  Code : String
  deriving DecidableEq, Repr

/-- Outcome of lines 48-69. -/
inductive StoreResult where
  /-- The call `sqlstore.New` returned an error. -/
  | newErr
  /-- The call `GetFirstDevice` returned an error. -/
  | deviceErr
  /-- A device store (found, or created by `NewDevice`); `hasID` is `ID != nil`. -/
  | device (hasID : Bool)
  deriving DecidableEq, Repr

/-- Body of the `for evt := range qrChan` loop (lines 87-98).  `qrEncode code`
is `qrcode.Encode(code, qrcode.Medium, 256)` followed by base64, `none` when
`Encode` returns an error; `now` is what `time.Now()` returns. -/
def qrBody (qrEncode : String → Option String) (m : Manager) (evt : QRChannelItem)
    (now : Nat) : Manager :=
  if evt.Event = "code" then
    match qrEncode evt.Code with
    | some qrBase64 => m.updateStatus "Waiting for QR Scan" qrBase64
    | none => m
  else if evt.Event = "success" then
    ({ m with StartTime := some now } : Manager).updateStatus "Connected" ""
  else m

/-- The loop of lines 86-99 over the items the channel delivers before it
closes, each with the reading of the clock while it is processed. -/
def qrLoop (qrEncode : String → Option String) (items : List (QRChannelItem × Nat))
    (m : Manager) : Manager :=
  items.foldl (fun m p => qrBody qrEncode m p.1 p.2) m

/-- What the collaborators answer during one run of `ConnectClient`. -/
structure ConnWorld where
  store : StoreResult
  /-- Truth of `err != nil` after `m.Client.Connect()`. -/
  connectErr : Bool
  /-- The items the QR channel delivers before it closes, each with the reading
  of the clock while it is processed. -/
  qrItems : List (QRChannelItem × Nat)
  /-- Reading of the clock at line 107. -/
  now : Nat

/-- `(m *Manager) ConnectClient()` run without interference, to its return. -/
def Manager.ConnectClient (qrEncode : String → Option String) (w : ConnWorld)
    (m : Manager) : Manager :=
  let m := m.updateStatus "Connecting..." ""
  match w.store with
  | StoreResult.newErr => m.updateStatus "Connection Failed" ""
  | StoreResult.deviceErr => m.updateStatus "Connection Failed" ""
  | StoreResult.device hasID =>
    let m : Manager := { m with Client := some { connected := false, hasID := hasID } }
    if !hasID then
      if w.connectErr then m.updateStatus "Connection Failed" ""
      else
        let m : Manager := { m with Client := some { connected := true, hasID := hasID } }
        qrLoop qrEncode w.qrItems m
    else
      if w.connectErr then m.updateStatus "Connection Failed" ""
      else
        ({ m with Client := some { connected := true, hasID := hasID },
                  StartTime := some w.now } : Manager).updateStatus "Connected" ""

/-! ## The running system: handlers and goroutines interleaved -/

/-- Where a goroutine running `ConnectClient` stands. -/
inductive Pc where
  /-- Started by `go s.botManager.ConnectClient()`, line 46 not yet run. -/
  | entry
  /-- Before line 48. -/
  | openStore
  /-- Before line 78. -/
  | connect
  /-- At line 86, receiving from `qrChan`. -/
  | qrLoop
  /-- After line 94, before line 95. -/
  | qrConnected
  /-- After line 107, before line 108. -/
  | connected
  deriving DecidableEq, Repr

/-- What the collaborators answer to one step of a `ConnectClient` goroutine;
a step reads only the field it asks for. -/
structure Ext where
  store : StoreResult
  connectErr : Bool
  /-- What the receive on `qrChan` yields; `none` is the closed channel. -/
  qr : Option QRChannelItem
  now : Nat
  deriving DecidableEq, Repr

/-- One step of a `ConnectClient` goroutine: the new manager and the new
position, `none` when the function has returned.  The function goes through
`m.Client` (lines 78-80), the handle of whichever goroutine wrote it last; the
field is never reset to nil, so the `none` case of `Pc.connect` is never taken
after `Pc.openStore`.  `hasID` is the `Store.ID != nil` of the handle when it
was created.  The error of `GetQRChannel` is dropped at line 79; a nil channel
neither delivers nor closes, and the goroutine then stays at `Pc.qrLoop`. -/
def stepAttempt (qrEncode : String → Option String) (x : Ext) (m : Manager) :
    Pc → Manager × Option Pc
  | Pc.entry => (m.updateStatus "Connecting..." "", some Pc.openStore)
  | Pc.openStore =>
    match x.store with
    | StoreResult.newErr => (m.updateStatus "Connection Failed" "", none)
    | StoreResult.deviceErr => (m.updateStatus "Connection Failed" "", none)
    | StoreResult.device hasID =>
      ({ m with Client := some { connected := false, hasID := hasID } }, some Pc.connect)
  | Pc.connect =>
    match m.Client with
    | none => (m, none)
    | some c =>
      if !c.hasID then
        if x.connectErr then (m.updateStatus "Connection Failed" "", none)
        else ({ m with Client := some { c with connected := true } }, some Pc.qrLoop)
      else
        if x.connectErr then (m.updateStatus "Connection Failed" "", none)
        else
          ({ m with Client := some { c with connected := true }, StartTime := some x.now },
            some Pc.connected)
  | Pc.qrLoop =>
    match x.qr with
    | none => (m, none)
    | some evt =>
      if evt.Event = "code" then
        match qrEncode evt.Code with
        | some qrBase64 => (m.updateStatus "Waiting for QR Scan" qrBase64, some Pc.qrLoop)
        | none => (m, some Pc.qrLoop)
      else if evt.Event = "success" then
        ({ m with StartTime := some x.now }, some Pc.qrConnected)
      else (m, some Pc.qrLoop)
  | Pc.qrConnected => (m.updateStatus "Connected" "", some Pc.qrLoop)
  | Pc.connected => (m.updateStatus "Connected" "", none)

/-- The manager together with the `ConnectClient` goroutines that have started
and not yet returned, oldest first. -/
structure Sys where
  m : Manager
  attempts : List Pc
  deriving DecidableEq, Repr

/-- The process after `main` built the manager (`cmd/whatsapp-bot/main.go`). -/
def Sys.init (apiKey : String) : Sys := { m := NewManager apiKey, attempts := [] }

/-- `(s *Server) handleConnect` (`cmd/web/web.go`, lines 42-60): the check and
the write of `Status` under the lock, then `go s.botManager.ConnectClient()`.
The response, on both paths, is `handleStatus` of the manager it then finds. -/
def handleConnect (s : Sys) : Sys :=
  if s.m.Status = "Connected" ∨ s.m.Status = "Connecting..." then s
  else { m := { s.m with Status := "Connecting..." }, attempts := s.attempts ++ [Pc.entry] }

/-- `(s *Server) handleDisconnect` (lines 62-65): `Disconnect()` on the manager. -/
def handleDisconnect (s : Sys) : Sys := { s with m := s.m.Disconnect.1 }

/-- The operations that move the system. -/
inductive Op where
  /-- A `POST /connect` request. -/
  | connectReq
  /-- The `i`-th running `ConnectClient` takes its next step. -/
  | attempt (i : Nat) (x : Ext)
  /-- An event delivered by whatsmeow to `eventHandler`. -/
  | event (w : MsgWorld) (e : Event)
  /-- A `POST /disconnect` request, or `Disconnect()` at shutdown. -/
  | disconnectReq
  /-- The websocket of the current client drops, or reconnects, on its own. -/
  | net (up : Bool)

/-- One step of the system. -/
def step (qrEncode : String → Option String) (s : Sys) : Op → Sys
  | Op.connectReq => handleConnect s
  | Op.attempt i x =>
    match s.attempts[i]? with
    | none => s
    | some pc =>
      match stepAttempt qrEncode x s.m pc with
      | (m, some pc1) => { m := m, attempts := s.attempts.set i pc1 }
      | (m, none) => { m := m, attempts := s.attempts.eraseIdx i }
  | Op.event w e => { s with m := (s.m.eventHandler w e).1 }
  | Op.disconnectReq => handleDisconnect s
  | Op.net up =>
    match s.m.Client with
    | none => s
    | some c => { s with m := { s.m with Client := some { c with connected := up } } }

/-- Run a sequence of operations. -/
def run (qrEncode : String → Option String) (ops : List Op) (s : Sys) : Sys :=
  ops.foldl (step qrEncode) s

/-- States some sequence of operations reaches from a fresh process. -/
def Reachable (qrEncode : String → Option String) (s : Sys) : Prop :=
  ∃ apiKey ops, s = run qrEncode ops (Sys.init apiKey)

/-- Truth of `m.Client != nil && m.Client.IsConnected()`, the test of line 116. -/
def Manager.clientConnected (m : Manager) : Bool :=
  match m.Client with
  | none => false
  | some c => c.connected

/-- The transitions of the table of section 4.2 of the specification, on the
status strings of the code. -/
def tableEdge (src dst : String) : Bool :=
  (decide (src = "Disconnected" ∨ src = "Connection Failed") && decide (dst = "Connecting..."))
  || (decide (src = "Connecting...") && decide (dst = "Waiting for QR Scan"))
  || (decide (src = "Waiting for QR Scan") && decide (dst = "Waiting for QR Scan"))
  || (decide (src = "Waiting for QR Scan" ∨ src = "Connecting...") && decide (dst = "Connected"))
  || (decide (src = "Waiting for QR Scan") && decide (dst = "Connection Failed"))
  || (decide (src = "Connecting...") && decide (dst = "Connection Failed"))
  || (decide (src = "Connected") && decide (dst = "Disconnected"))

/-- The goroutine has written the start time and is about to write Connected
(between lines 94 and 95, or 107 and 108). -/
def Pc.pending : Pc → Bool
  | Pc.qrConnected => true
  | Pc.connected => true
  | _ => false

/-- The status a `ConnectClient` goroutine can write in its next step. -/
def Pc.target : Pc → String
  | Pc.entry => "Connecting..."
  | Pc.openStore => "Connection Failed"
  | Pc.connect => "Connection Failed"
  | Pc.qrLoop => "Waiting for QR Scan"
  | Pc.qrConnected => "Connected"
  | Pc.connected => "Connected"

/-- What every reachable state satisfies about the start time: it is set
whenever the status is Connected, and whenever a goroutine is about to write
Connected. -/
def StartInv (s : Sys) : Prop :=
  (s.m.Status = "Connected" → s.m.StartTime.isSome = true) ∧
  (∀ pc ∈ s.attempts, pc.pending = true → s.m.StartTime.isSome = true)

/-- The answers a goroutine reads when the QR channel delivers `items` and then
closes: one step for each item, one more for the status write after a success
item, and the receive that finds the channel closed. -/
def loopScript (w : ConnWorld) : List (QRChannelItem × Nat) → List Ext
  | [] => [{ store := w.store, connectErr := w.connectErr, qr := none, now := w.now }]
  | p :: items =>
    (if p.1.Event = "code" then
      [{ store := w.store, connectErr := w.connectErr, qr := some p.1, now := p.2 }]
    else if p.1.Event = "success" then
      [{ store := w.store, connectErr := w.connectErr, qr := some p.1, now := p.2 },
       { store := w.store, connectErr := w.connectErr, qr := none, now := w.now }]
    else
      [{ store := w.store, connectErr := w.connectErr, qr := some p.1, now := p.2 }])
    ++ loopScript w items

/-- The steps of one goroutine that runs `ConnectClient` in the world `w`,
alone, from its start to its return. -/
def script (w : ConnWorld) : List Op :=
  (({ store := w.store, connectErr := w.connectErr, qr := none, now := w.now } : Ext)
    :: { store := w.store, connectErr := w.connectErr, qr := none, now := w.now }
    :: { store := w.store, connectErr := w.connectErr, qr := none, now := w.now }
    :: loopScript w w.qrItems).map (Op.attempt 0)

/-- What every reachable state satisfies about the pairing payload: it is
non-empty while the status is Waiting for QR Scan, and otherwise non-empty only
in the state `handleConnect` leaves (status Connecting, the started goroutine
not yet at line 46). -/
def PayloadInv (s : Sys) : Prop :=
  (s.m.Status = "Waiting for QR Scan" → s.m.QrCode ≠ "") ∧
  (s.m.QrCode ≠ "" → s.m.Status = "Waiting for QR Scan" ∨
    (s.m.Status = "Connecting..." ∧ Pc.entry ∈ s.attempts))

/-- The operation is not a goroutine step answered with a successful
`Connect()` or with the success item of the QR channel: events, requests,
websocket changes, and goroutine steps whose `Connect()` fails and whose
receive yields no success item. -/
def Op.bringsNoSuccess : Op → Bool
  | Op.attempt _ x =>
    x.connectErr &&
      (match x.qr with
       | some evt => decide (evt.Event ≠ "success")
       | none => true)
  | _ => true

/-! ## Concrete inputs used to evaluate the code -/

/-- An encoder for the examples: fails on the empty code, otherwise some
non-empty text. -/
def demoEncode : String → Option String :=
  fun code => if code = "" then none else some ("iVBORw0KGgo" ++ code)

/-- An uptime text for the examples. -/
def demoUptime : Option Nat → String := fun _ => "0s"

/-- Collaborator answers of a first login: a device without ID, `Connect()`
succeeds, nothing on the channel yet. -/
def demoExt : Ext :=
  { store := StoreResult.device false, connectErr := false, qr := none, now := 7 }

/-- The channel delivers a pairing code. -/
def extCode : Ext := { demoExt with qr := some { Event := "code", Code := "2@abc" } }

/-- The channel delivers the success item. -/
def extSuccess : Ext := { demoExt with qr := some { Event := "success", Code := "" } }

/-- `POST /connect` on a fresh process, then the started `ConnectClient` runs up
to its receive on the QR channel. -/
def opsToQrLoop : List Op :=
  [Op.connectReq, Op.attempt 0 demoExt, Op.attempt 0 demoExt, Op.attempt 0 demoExt]

/-- As `opsToQrLoop`, then a pairing code arrives. -/
def opsToWaiting : List Op := opsToQrLoop ++ [Op.attempt 0 extCode]

/-- As `opsToWaiting`, then the phone scans the code: success item, status write,
channel closed, `ConnectClient` returns. -/
def opsToConnected : List Op :=
  opsToWaiting ++ [Op.attempt 0 extSuccess, Op.attempt 0 demoExt, Op.attempt 0 demoExt]

/-- A message world whose download and transcription succeed. -/
def demoMsgWorld : MsgWorld := { download := some [79, 103, 103, 83], transcribe := fun _ => some "hello" }

/-- A manager whose status is Disconnected while its client has reconnected. -/
def reconnectedManager : Manager :=
  { Client := some { connected := true, hasID := false }, Status := "Disconnected",
    QrCode := "", APIKey := "k", StartTime := some 7 }

/-- As `opsToConnected`, then the websocket drops, whatsmeow delivers the
Disconnected event, and its automatic reconnect brings the websocket back. -/
def opsToReconnected : List Op :=
  opsToConnected ++ [Op.net false, Op.event demoMsgWorld Event.disconnected, Op.net true]

/-- As `opsToConnected`, then whatsmeow delivers the Disconnected event. -/
def opsToDropped : List Op :=
  opsToConnected ++ [Op.event demoMsgWorld Event.disconnected]

/-- A first login whose QR channel delivers a timeout item and closes. -/
def timeoutWorld : ConnWorld :=
  { store := StoreResult.device false, connectErr := false,
    qrItems := [({ Event := "timeout", Code := "" }, 3)], now := 3 }

/-- A first login whose QR channel delivers a code, then a timeout item, and
closes. -/
def codeTimeoutWorld : ConnWorld :=
  { store := StoreResult.device false, connectErr := false,
    qrItems := [({ Event := "code", Code := "2@abc" }, 2),
                ({ Event := "timeout", Code := "" }, 3)], now := 3 }

/-- A first login whose QR channel delivers the success item and then one more
code. -/
def codeAfterSuccessWorld : ConnWorld :=
  { store := StoreResult.device false, connectErr := false,
    qrItems := [({ Event := "success", Code := "" }, 7),
                ({ Event := "code", Code := "2@abc" }, 8)], now := 7 }

/-- A first login whose QR channel delivers a code, the success item, and
closes. -/
def pairingWorld : ConnWorld :=
  { store := StoreResult.device false, connectErr := false,
    qrItems := [({ Event := "code", Code := "2@abc" }, 2),
                ({ Event := "success", Code := "" }, 7)], now := 7 }

/-- Collaborator answers of a failing attempt: `sqlstore.New` returns an error. -/
def extFail : Ext :=
  { store := StoreResult.newErr, connectErr := true, qr := none, now := 9 }

/-- After a session: the Disconnected event, a `Disconnect()`, a new
`POST /connect` and its `ConnectClient`, which fails on the store. -/
def opsDropAndFail : List Op :=
  [Op.event demoMsgWorld Event.disconnected, Op.disconnectReq, Op.connectReq,
    Op.attempt 0 extFail, Op.attempt 0 extFail]

/-! ## Theorems -/

/-- C10: `handleMessages` makes a send call exactly when the message carries
audio and both the download and the transcription succeeded; without audio it
makes no call at all; after a transcription error it makes no send call; and
`eventHandler` on a message event returns the manager as it received it, so the
status, the pairing payload and the start time are untouched. -/
theorem handleMessages_send_only_after_transcript (w : MsgWorld) (v : Message) (m : Manager) :
    ((∃ c ∈ handleMessages w v, c.isSend = true) ↔
      (v.hasAudio = true ∧ ∃ audio, w.download = some audio ∧
        ∃ t, w.transcribe audio = some t)) ∧
    (v.hasAudio = false → handleMessages w v = []) ∧
    (∀ audio, w.download = some audio → w.transcribe audio = none →
      ∀ c ∈ handleMessages w v, c.isSend = false) ∧
    (m.eventHandler w (Event.message v)).1 = m ∧
    (m.eventHandler w (Event.message v)).2 = handleMessages w v := by
  refine ⟨?_, ?_, ?_, rfl, rfl⟩
  · unfold handleMessages
    cases hv : v.hasAudio <;> simp
    cases hd : w.download with
    | none => simp [Call.isSend]
    | some audio =>
      cases ht : w.transcribe audio with
      | none => simp [Call.isSend, ht]
      | some t => simp [Call.isSend, ht]
  · intro hv
    simp [handleMessages, hv]
  · intro audio hd ht c hc
    unfold handleMessages at hc
    cases hv : v.hasAudio <;> simp [hv, hd, ht] at hc
    rcases hc with rfl | rfl <;> rfl

/-- C9: the fragment `handleStatus` renders shows the uptime text exactly when
the status is Connected, and the text it shows is the uptime of the start time;
it shows the QR image exactly when the status is Waiting for QR Scan, and the
image is the payload; the connect button exactly when the status is
Disconnected or Connection Failed, the disconnect button exactly when it is
Connected, never both buttons; the status text carries the status and the class
of the status: status-connected, status-disconnected (Disconnected and
Connection Failed), status-waiting, status-connecting.  For each of the five
statuses the whole fragment is given.  `uptimeText` is Go's `Duration.String`,
which never returns the empty string. -/
theorem handleStatus_fragment (uptimeText : Option Nat → String)
    (hup : ∀ t, uptimeText t ≠ "") (m : Manager) :
    ((∃ u, Elem.uptime u ∈ handleStatus uptimeText m) ↔ m.Status = "Connected") ∧
    ((∃ q, Elem.qrImage q ∈ handleStatus uptimeText m) ↔ m.Status = "Waiting for QR Scan") ∧
    (Elem.qrImage m.QrCode ∈ handleStatus uptimeText m ↔ m.Status = "Waiting for QR Scan") ∧
    (Elem.connectBtn ∈ handleStatus uptimeText m ↔
      (m.Status = "Disconnected" ∨ m.Status = "Connection Failed")) ∧
    (Elem.disconnectBtn ∈ handleStatus uptimeText m ↔ m.Status = "Connected") ∧
    ¬ (Elem.connectBtn ∈ handleStatus uptimeText m ∧
        Elem.disconnectBtn ∈ handleStatus uptimeText m) ∧
    Elem.statusText (statusClass m.Status) m.Status ∈ handleStatus uptimeText m ∧
    statusClass "Connected" = "status-connected" ∧
    statusClass "Disconnected" = "status-disconnected" ∧
    statusClass "Connection Failed" = "status-disconnected" ∧
    statusClass "Waiting for QR Scan" = "status-waiting" ∧
    statusClass "Connecting..." = "status-connecting" ∧
    (Elem.uptime (uptimeText m.StartTime) ∈ handleStatus uptimeText m ↔
      m.Status = "Connected") ∧
    (∀ u, Elem.uptime u ∈ handleStatus uptimeText m → u = uptimeText m.StartTime ∧ u ≠ "") ∧
    (∀ q, Elem.qrImage q ∈ handleStatus uptimeText m → q = m.QrCode) ∧
    (∀ c t, Elem.statusText c t ∈ handleStatus uptimeText m →
      c = statusClass m.Status ∧ t = m.Status) ∧
    (m.Status = "Connected" → handleStatus uptimeText m =
      [Elem.statusText "status-connected" "Connected",
       Elem.uptime (uptimeText m.StartTime), Elem.disconnectBtn]) ∧
    (m.Status = "Waiting for QR Scan" → handleStatus uptimeText m =
      [Elem.statusText "status-waiting" "Waiting for QR Scan", Elem.qrImage m.QrCode]) ∧
    (m.Status = "Disconnected" → handleStatus uptimeText m =
      [Elem.statusText "status-disconnected" "Disconnected", Elem.connectBtn]) ∧
    (m.Status = "Connection Failed" → handleStatus uptimeText m =
      [Elem.statusText "status-disconnected" "Connection Failed", Elem.connectBtn]) ∧
    (m.Status = "Connecting..." → handleStatus uptimeText m =
      [Elem.statusText "status-connecting" "Connecting..."]) := by
  have hc : (Elem.connectBtn ∈ handleStatus uptimeText m ↔
      (m.Status = "Disconnected" ∨ m.Status = "Connection Failed")) := by
    simp [handleStatus, renderStatus, statusData]
  have hd : (Elem.disconnectBtn ∈ handleStatus uptimeText m ↔ m.Status = "Connected") := by
    simp [handleStatus, renderStatus, statusData]
  refine ⟨?_, ?_, ?_, hc, hd, ?_, ?_, ?_, ?_, ?_, ?_, ?_, ?_, ?_, ?_, ?_, ?_, ?_, ?_, ?_, ?_⟩
  · by_cases h : m.Status = "Connected"
    · simp [handleStatus, renderStatus, statusData, h, hup]
    · simp [handleStatus, renderStatus, statusData, h]
  · simp [handleStatus, renderStatus, statusData]
  · simp [handleStatus, renderStatus, statusData]
  · rw [hc, hd]
    rintro ⟨h1 | h1, h2⟩ <;> rw [h1] at h2 <;> exact absurd h2 (by decide)
  · simp [handleStatus, renderStatus, statusData]
  · decide
  · decide
  · decide
  · decide
  · decide
  · by_cases h : m.Status = "Connected"
    · simp [handleStatus, renderStatus, statusData, h, hup]
    · simp [handleStatus, renderStatus, statusData, h]
  · intro u hu
    by_cases h : m.Status = "Connected"
    · simp [handleStatus, renderStatus, statusData, h, hup] at hu
      rw [hu]
      exact ⟨rfl, hup _⟩
    · simp [handleStatus, renderStatus, statusData, h] at hu
  · intro q hq
    simp [handleStatus, renderStatus, statusData] at hq
    exact hq.2
  · intro c t hct
    simp [handleStatus, renderStatus, statusData] at hct
    exact hct
  · intro h
    simp [handleStatus, renderStatus, statusData, statusClass, h, hup]
  · intro h
    simp [handleStatus, renderStatus, statusData, statusClass, h]
  · intro h
    simp [handleStatus, renderStatus, statusData, statusClass, h]
  · intro h
    simp [handleStatus, renderStatus, statusData, statusClass, h]
  · intro h
    simp [handleStatus, renderStatus, statusData, statusClass, h]

/-- C9, at a concrete input: a connected manager; its fragment is the status
text with class status-connected, the uptime text and the disconnect button. -/
theorem handleStatus_fragment_witness :
    (run demoEncode opsToConnected (Sys.init "k")).m.Status = "Connected" ∧
    handleStatus demoUptime (run demoEncode opsToConnected (Sys.init "k")).m =
      [Elem.statusText "status-connected" "Connected",
       Elem.uptime (demoUptime (run demoEncode opsToConnected (Sys.init "k")).m.StartTime),
       Elem.disconnectBtn] ∧
    (Elem.uptime (demoUptime (run demoEncode opsToConnected (Sys.init "k")).m.StartTime) ∈
        handleStatus demoUptime (run demoEncode opsToConnected (Sys.init "k")).m ↔
      (run demoEncode opsToConnected (Sys.init "k")).m.Status = "Connected") :=
  have h := handleStatus_fragment demoUptime (by intro t; simp [demoUptime])
    (run demoEncode opsToConnected (Sys.init "k")).m
  ⟨by decide, h.2.2.2.2.2.2.2.2.2.2.2.2.2.2.2.2.1 (by decide), h.2.2.2.2.2.2.2.2.2.2.2.2.1⟩

/-! ### `Disconnect` -/

/-- C8, as stated, fails: with status Disconnected and a client that has
reconnected (a state the process reaches after a dropped websocket),
`Disconnect()` queries the client, disconnects it, and the manager changes. -/
theorem Disconnect_acts_when_status_Disconnected :
    (run demoEncode opsToReconnected (Sys.init "k")).m = reconnectedManager ∧
    reconnectedManager.Status = "Disconnected" ∧
    reconnectedManager.Disconnect.2 = [Call.isConnected, Call.disconnect] ∧
    reconnectedManager.Disconnect.1 ≠ reconnectedManager := by
  decide

/-- C8, amended: `Disconnect()` is guarded by the client handle, not by the
status.  When the handle is nil or reports not connected — as in the
`NewManager` state and in the state any `Disconnect()` leaves — it leaves the
manager unchanged and issues no disconnect: it makes no call at all on a nil
handle, and the `IsConnected` query and nothing else otherwise; so in every
state a second `Disconnect()` changes nothing.  When the handle reports
connected it makes the `IsConnected` query and the disconnect, and writes
Disconnected with an empty payload, whatever the status was, leaving the API
key and the start time. -/
theorem Disconnect_guarded_by_client (m : Manager) (apiKey : String) :
    (m.clientConnected = false →
      m.Disconnect.1 = m ∧ Call.disconnect ∉ m.Disconnect.2 ∧
      (m.Client = none → m.Disconnect.2 = [])) ∧
    (m.clientConnected = true →
      m.Disconnect.2 = [Call.isConnected, Call.disconnect] ∧
      m.Disconnect.1.Status = "Disconnected" ∧ m.Disconnect.1.QrCode = "" ∧
      m.Disconnect.1.StartTime = m.StartTime) ∧
    m.Disconnect.1.clientConnected = false ∧
    m.Disconnect.1.Disconnect.1 = m.Disconnect.1 ∧
    Call.disconnect ∉ m.Disconnect.1.Disconnect.2 ∧
    (NewManager apiKey).Disconnect = (NewManager apiKey, []) ∧
    (m.clientConnected = false → m.Client ≠ none → m.Disconnect.2 = [Call.isConnected]) ∧
    (m.clientConnected = false →
      m.Disconnect = (m, if m.Client = none then [] else [Call.isConnected])) ∧
    (m.clientConnected = true →
      m.Disconnect.1 = { m with Client := m.Client.map Client.doDisconnect,
                                Status := "Disconnected", QrCode := "" } ∧
      m.Disconnect.1.APIKey = m.APIKey) ∧
    (m.Disconnect.1.Disconnect.2 = if m.Client = none then [] else [Call.isConnected]) := by
  refine ⟨?_, ?_, ?_, ?_, ?_, rfl, ?_, ?_, ?_, ?_⟩
  all_goals
    cases hc : m.Client with
    | none => simp [Manager.Disconnect, Manager.clientConnected, hc]
    | some c =>
      cases hcc : c.connected <;>
        simp [Manager.Disconnect, Manager.clientConnected, Client.doDisconnect, hc, hcc]

/-! ### `handleConnect` -/

/-- C1, as stated, fails: after a session that was connected and dropped, the
start time is still set; `POST /connect` passes the check, writes Connecting,
and neither it nor the first statement of the `ConnectClient` it starts clears
the start time. -/
theorem handleConnect_keeps_StartTime :
    (run demoEncode opsToDropped (Sys.init "k")).m.Status = "Disconnected" ∧
    (handleConnect (run demoEncode opsToDropped (Sys.init "k"))).m.Status = "Connecting..." ∧
    (handleConnect (run demoEncode opsToDropped (Sys.init "k"))).m.StartTime = some 7 ∧
    (step demoEncode (handleConnect (run demoEncode opsToDropped (Sys.init "k")))
      (Op.attempt 0 demoExt)).m.StartTime = some 7 := by
  decide

/-- C1, amended: when the status is Connected or Connecting, `handleConnect`
leaves the whole state unchanged and starts no `ConnectClient`.  Otherwise it
writes Connecting, leaves every other field (payload and start time included)
as it is, and starts exactly one `ConnectClient`, whose first statement writes
Connecting again and clears the payload; the start time is not cleared. -/
theorem handleConnect_check_and_set (qrEncode : String → Option String) (s : Sys) (x : Ext) :
    ((s.m.Status = "Connected" ∨ s.m.Status = "Connecting...") → handleConnect s = s) ∧
    (¬ (s.m.Status = "Connected" ∨ s.m.Status = "Connecting...") →
      (handleConnect s).m = { s.m with Status := "Connecting..." } ∧
      (handleConnect s).attempts = s.attempts ++ [Pc.entry] ∧
      (handleConnect s).attempts.length = s.attempts.length + 1 ∧
      (handleConnect s).m.StartTime = s.m.StartTime ∧
      step qrEncode (handleConnect s) (Op.attempt s.attempts.length x) =
        { m := { s.m with Status := "Connecting...", QrCode := "" },
          attempts := s.attempts ++ [Pc.openStore] }) := by
  constructor
  · intro h
    simp [handleConnect, h]
  · intro h
    simp [handleConnect, h, step, stepAttempt, Manager.updateStatus]

/-! ### The QR loop of `ConnectClient` -/

theorem qrLoop_nil (qrEncode : String → Option String) (m : Manager) :
    qrLoop qrEncode [] m = m := rfl

theorem qrLoop_cons (qrEncode : String → Option String) (p : QRChannelItem × Nat)
    (items : List (QRChannelItem × Nat)) (m : Manager) :
    qrLoop qrEncode (p :: items) m = qrLoop qrEncode items (qrBody qrEncode m p.1 p.2) := rfl

theorem qrLoop_append (qrEncode : String → Option String)
    (pre post : List (QRChannelItem × Nat)) (m : Manager) :
    qrLoop qrEncode (pre ++ post) m = qrLoop qrEncode post (qrLoop qrEncode pre m) := by
  simp [qrLoop, List.foldl_append]

/-- An item that is not the success item leaves the status as it is or writes
Waiting for QR Scan. -/
theorem qrBody_no_success (qrEncode : String → Option String) (m : Manager)
    (evt : QRChannelItem) (now : Nat) (h : evt.Event ≠ "success") :
    (qrBody qrEncode m evt now).Status = m.Status ∨
      (qrBody qrEncode m evt now).Status = "Waiting for QR Scan" := by
  unfold qrBody
  by_cases hc : evt.Event = "code"
  · cases he : qrEncode evt.Code <;> simp [hc, he, Manager.updateStatus]
  · simp [hc, h]

/-- A loop that meets no success item ends in the status it started in or in
Waiting for QR Scan. -/
theorem qrLoop_no_success (qrEncode : String → Option String)
    (items : List (QRChannelItem × Nat)) (m : Manager)
    (h : ∀ p ∈ items, p.1.Event ≠ "success") :
    (qrLoop qrEncode items m).Status = m.Status ∨
      (qrLoop qrEncode items m).Status = "Waiting for QR Scan" := by
  induction items generalizing m with
  | nil => exact Or.inl rfl
  | cons p items ih =>
    rw [qrLoop_cons]
    have hp := qrBody_no_success qrEncode m p.1 p.2 (h p (List.mem_cons_self _ _))
    have hrest := ih (qrBody qrEncode m p.1 p.2)
      (fun q hq => h q (List.mem_cons_of_mem _ hq))
    rcases hrest with h1 | h1
    · rcases hp with h2 | h2
      · exact Or.inl (h1.trans h2)
      · exact Or.inr (h1.trans h2)
    · exact Or.inr h1

/-- Items that are not codes keep a connected manager connected, with an empty
payload and a start time. -/
theorem qrLoop_no_code_keeps_Connected (qrEncode : String → Option String)
    (items : List (QRChannelItem × Nat)) (m : Manager)
    (h : ∀ p ∈ items, p.1.Event ≠ "code")
    (hs : m.Status = "Connected") (hq : m.QrCode = "") (ht : m.StartTime.isSome = true) :
    (qrLoop qrEncode items m).Status = "Connected" ∧
      (qrLoop qrEncode items m).QrCode = "" ∧
      (qrLoop qrEncode items m).StartTime.isSome = true := by
  induction items generalizing m with
  | nil => exact ⟨hs, hq, ht⟩
  | cons p items ih =>
    rw [qrLoop_cons]
    have hp : p.1.Event ≠ "code" := h p (List.mem_cons_self _ _)
    apply ih _ (fun q hq => h q (List.mem_cons_of_mem _ hq))
    · unfold qrBody
      by_cases hsu : p.1.Event = "success" <;> simp [hp, hsu, hs, Manager.updateStatus]
    · unfold qrBody
      by_cases hsu : p.1.Event = "success" <;> simp [hp, hsu, hq, Manager.updateStatus]
    · unfold qrBody
      by_cases hsu : p.1.Event = "success" <;> simp [hp, hsu, ht, Manager.updateStatus]

/-- `ConnectClient` on a first login whose `Connect()` succeeds is the QR loop
run from the Connecting state. -/
theorem ConnectClient_first_login (qrEncode : String → Option String) (w : ConnWorld)
    (m : Manager) (hstore : w.store = StoreResult.device false) (hconn : w.connectErr = false) :
    m.ConnectClient qrEncode w =
      qrLoop qrEncode w.qrItems
        { m with Client := some { connected := true, hasID := false },
                 Status := "Connecting...", QrCode := "" } := by
  simp [Manager.ConnectClient, hstore, hconn, Manager.updateStatus]

/-- C5, the code at the failing input: on a first login whose `Connect()`
succeeds, a QR channel that closes without a success item leaves the status at
Connecting (no code was delivered) or at Waiting for QR Scan, never at
Connection Failed.  With the single item `timeout` the status stays Connecting
and the next `POST /connect` is turned away; with a code and then `timeout` it
stays Waiting for QR Scan, the stale payload still set. -/
theorem ConnectClient_closed_channel_not_failed :
    (∀ (qrEncode : String → Option String) (w : ConnWorld) (m : Manager),
      w.store = StoreResult.device false → w.connectErr = false →
      (∀ p ∈ w.qrItems, p.1.Event ≠ "success") →
      (m.ConnectClient qrEncode w).Status = "Connecting..." ∨
        (m.ConnectClient qrEncode w).Status = "Waiting for QR Scan") ∧
    ((handleConnect (Sys.init "k")).m.ConnectClient demoEncode timeoutWorld).Status
      = "Connecting..." ∧
    handleConnect
        { m := (handleConnect (Sys.init "k")).m.ConnectClient demoEncode timeoutWorld,
          attempts := [] }
      = { m := (handleConnect (Sys.init "k")).m.ConnectClient demoEncode timeoutWorld,
          attempts := [] } ∧
    ((handleConnect (Sys.init "k")).m.ConnectClient demoEncode codeTimeoutWorld).Status
      = "Waiting for QR Scan" ∧
    ((handleConnect (Sys.init "k")).m.ConnectClient demoEncode codeTimeoutWorld).QrCode
      = "iVBORw0KGgo2@abc" := by
  refine ⟨?_, by decide, by decide, by decide, by decide⟩
  intro qrEncode w m hstore hconn hitems
  rw [ConnectClient_first_login qrEncode w m hstore hconn]
  exact qrLoop_no_success qrEncode w.qrItems _ hitems

/-- C6, as stated, fails: the loop has no `break`; a code item delivered after
the success item is processed, and `ConnectClient` returns with status Waiting
for QR Scan and a non-empty payload. -/
theorem ConnectClient_code_after_success :
    ((handleConnect (Sys.init "k")).m.ConnectClient demoEncode codeAfterSuccessWorld).Status
      = "Waiting for QR Scan" ∧
    ((handleConnect (Sys.init "k")).m.ConnectClient demoEncode codeAfterSuccessWorld).QrCode
      = "iVBORw0KGgo2@abc" := by
  decide

/-- C6, amended: on a first login whose `Connect()` succeeds, the loop writes
Connected with an empty payload when it processes a success item (whatever came
before) and goes on with the items that follow; when none of them is a code
item, `ConnectClient` returns with status Connected, an empty payload and the
start time set. -/
theorem ConnectClient_success_then_no_code (qrEncode : String → Option String)
    (w : ConnWorld) (m : Manager) (pre post : List (QRChannelItem × Nat))
    (code : String) (now : Nat)
    (hstore : w.store = StoreResult.device false) (hconn : w.connectErr = false)
    (hitems : w.qrItems = pre ++ ({ Event := "success", Code := code }, now) :: post)
    (hpost : ∀ p ∈ post, p.1.Event ≠ "code") :
    (∀ m0 : Manager,
      (qrLoop qrEncode (pre ++ [({ Event := "success", Code := code }, now)]) m0).Status
        = "Connected" ∧
      (qrLoop qrEncode (pre ++ [({ Event := "success", Code := code }, now)]) m0).QrCode
        = "" ∧
      (qrLoop qrEncode (pre ++ [({ Event := "success", Code := code }, now)]) m0).StartTime
        = some now) ∧
    (m.ConnectClient qrEncode w).Status = "Connected" ∧
    (m.ConnectClient qrEncode w).QrCode = "" ∧
    (m.ConnectClient qrEncode w).StartTime.isSome = true := by
  have hfirst : ∀ m0 : Manager,
      (qrLoop qrEncode (pre ++ [({ Event := "success", Code := code }, now)]) m0).Status
        = "Connected" ∧
      (qrLoop qrEncode (pre ++ [({ Event := "success", Code := code }, now)]) m0).QrCode
        = "" ∧
      (qrLoop qrEncode (pre ++ [({ Event := "success", Code := code }, now)]) m0).StartTime
        = some now := by
    intro m0
    rw [qrLoop_append, qrLoop_cons, qrLoop_nil]
    simp [qrBody, Manager.updateStatus]
  refine ⟨hfirst, ?_⟩
  rw [ConnectClient_first_login qrEncode w m hstore hconn, hitems]
  have hsplit : pre ++ ({ Event := "success", Code := code }, now) :: post
      = (pre ++ [({ Event := "success", Code := code }, now)]) ++ post := by simp
  rw [hsplit, qrLoop_append]
  obtain ⟨h1, h2, h3⟩ := hfirst
    { m with Client := some { connected := true, hasID := false },
             Status := "Connecting...", QrCode := "" }
  exact qrLoop_no_code_keeps_Connected qrEncode post _ hpost h1 h2 (by simp [h3])

/-- C6, amended, at a concrete input: a code, then the success item. -/
theorem ConnectClient_success_then_no_code_witness :
    ((handleConnect (Sys.init "k")).m.ConnectClient demoEncode pairingWorld).Status
      = "Connected" ∧
    ((handleConnect (Sys.init "k")).m.ConnectClient demoEncode pairingWorld).QrCode = "" :=
  have h := ConnectClient_success_then_no_code demoEncode pairingWorld
    (handleConnect (Sys.init "k")).m [({ Event := "code", Code := "2@abc" }, 2)] [] "" 7
    rfl rfl rfl (by simp)
  ⟨h.2.1, h.2.2.1⟩

/-! ### The running system -/

theorem run_nil (qrEncode : String → Option String) (s : Sys) : run qrEncode [] s = s := rfl

theorem run_cons (qrEncode : String → Option String) (op : Op) (ops : List Op) (s : Sys) :
    run qrEncode (op :: ops) s = run qrEncode ops (step qrEncode s op) := rfl

/-- A property that holds initially and is kept by every step holds in every
reachable state. -/
theorem Reachable.induct (qrEncode : String → Option String) (P : Sys → Prop)
    (hinit : ∀ apiKey, P (Sys.init apiKey))
    (hstep : ∀ s op, P s → P (step qrEncode s op))
    (s : Sys) (h : Reachable qrEncode s) : P s := by
  obtain ⟨apiKey, ops, rfl⟩ := h
  have key : ∀ (ops : List Op) (s0 : Sys), P s0 → P (run qrEncode ops s0) := by
    intro ops
    induction ops with
    | nil => intro s0 h0; exact h0
    | cons op ops ih => intro s0 h0; rw [run_cons]; exact ih _ (hstep s0 op h0)
  exact key ops _ (hinit apiKey)

/-- What one step of a goroutine does to the start time. -/
theorem stepAttempt_StartTime (qrEncode : String → Option String) (x : Ext) (m : Manager)
    (pc : Pc) (hS : m.Status = "Connected" → m.StartTime.isSome = true)
    (hpc : pc.pending = true → m.StartTime.isSome = true) :
    (m.StartTime.isSome = true → (stepAttempt qrEncode x m pc).1.StartTime.isSome = true) ∧
    ((stepAttempt qrEncode x m pc).1.Status = "Connected" →
      (stepAttempt qrEncode x m pc).1.StartTime.isSome = true) ∧
    (∀ pc1, (stepAttempt qrEncode x m pc).2 = some pc1 → pc1.pending = true →
      (stepAttempt qrEncode x m pc).1.StartTime.isSome = true) := by
  cases pc with
  | entry => simp [stepAttempt, Manager.updateStatus, Pc.pending]
  | openStore =>
    cases hst : x.store <;> simp [stepAttempt, Manager.updateStatus, Pc.pending, hst]
    exact hS
  | connect =>
    cases hc : m.Client with
    | none => simp [stepAttempt, hc]; exact hS
    | some c =>
      cases hid : c.hasID <;> cases hce : x.connectErr <;>
        simp [stepAttempt, Manager.updateStatus, Pc.pending, hc, hid, hce]
      exact hS
  | qrLoop =>
    cases hq : x.qr with
    | none => simp [stepAttempt, hq]; exact hS
    | some evt =>
      by_cases hcode : evt.Event = "code"
      · cases he : qrEncode evt.Code <;>
          simp [stepAttempt, Manager.updateStatus, Pc.pending, hq, hcode, he]
        exact hS
      · by_cases hsu : evt.Event = "success"
        · simp [stepAttempt, Manager.updateStatus, Pc.pending, hq, hcode, hsu]
        · simp [stepAttempt, Manager.updateStatus, Pc.pending, hq, hcode, hsu]
          exact hS
  | qrConnected =>
    have h := hpc rfl
    simp [stepAttempt, Manager.updateStatus, Pc.pending, h]
  | connected =>
    have h := hpc rfl
    simp [stepAttempt, Manager.updateStatus, Pc.pending, h]

/-- No step clears the start time. -/
theorem step_keeps_StartTime (qrEncode : String → Option String) (s : Sys) (op : Op)
    (hinv : StartInv s) (h : s.m.StartTime.isSome = true) :
    (step qrEncode s op).m.StartTime.isSome = true := by
  cases op with
  | connectReq =>
    by_cases hg : s.m.Status = "Connected" ∨ s.m.Status = "Connecting..."
    · simp [step, handleConnect, hg, h]
    · simp [step, handleConnect, hg, h]
  | attempt i x =>
    simp only [step]
    cases hi : s.attempts[i]? with
    | none => simpa using h
    | some pc =>
      have hmem : pc ∈ s.attempts := List.getElem?_mem hi
      have hk := (stepAttempt_StartTime qrEncode x s.m pc hinv.1 (hinv.2 pc hmem)).1 h
      rcases hr : stepAttempt qrEncode x s.m pc with ⟨m1, _ | pc1⟩ <;>
        simp [hr] at hk ⊢ <;> exact hk
  | event w e =>
    cases e <;> simpa [step, Manager.eventHandler, Manager.updateStatus] using h
  | disconnectReq =>
    simp only [step, handleDisconnect, Manager.Disconnect]
    cases hc : s.m.Client with
    | none => simpa using h
    | some c => cases hcc : c.connected <;> simpa [hcc] using h
  | net up =>
    simp only [step]
    cases hc : s.m.Client with
    | none => simpa using h
    | some c => simpa using h

/-- A step that leaves the status at Connected either found it there or is a
goroutine step. -/
theorem step_Connected_origin (qrEncode : String → Option String) (s : Sys) (op : Op)
    (h : (step qrEncode s op).m.Status = "Connected") :
    s.m.Status = "Connected" ∨ ∃ i x, op = Op.attempt i x := by
  cases op with
  | connectReq =>
    by_cases hg : s.m.Status = "Connected" ∨ s.m.Status = "Connecting..."
    · simp [step, handleConnect, hg] at h
      exact Or.inl h
    · simp [step, handleConnect, hg] at h
  | attempt i x => exact Or.inr ⟨i, x, rfl⟩
  | event w e =>
    cases e <;> simp [step, Manager.eventHandler, Manager.updateStatus] at h <;>
      exact Or.inl h
  | disconnectReq =>
    simp only [step, handleDisconnect, Manager.Disconnect] at h
    cases hc : s.m.Client with
    | none => simp [hc] at h; exact Or.inl h
    | some c => cases hcc : c.connected <;> simp [hc, hcc] at h; exact Or.inl h
  | net up =>
    simp only [step] at h
    cases hc : s.m.Client with
    | none => simp [hc] at h; exact Or.inl h
    | some c => simp [hc] at h; exact Or.inl h

/-- The goroutines after a step are those before it, the one that stepped
apart. -/
theorem step_attempts (qrEncode : String → Option String) (s : Sys) (op : Op) (pc : Pc)
    (h : pc ∈ (step qrEncode s op).attempts) :
    pc ∈ s.attempts ∨ (op = Op.connectReq ∧ pc = Pc.entry) ∨
      ∃ i x pc0, op = Op.attempt i x ∧ s.attempts[i]? = some pc0 ∧
        (stepAttempt qrEncode x s.m pc0).2 = some pc := by
  cases op with
  | connectReq =>
    by_cases hg : s.m.Status = "Connected" ∨ s.m.Status = "Connecting..."
    · simp [step, handleConnect, hg] at h
      exact Or.inl h
    · simp [step, handleConnect, hg] at h
      rcases h with h | h
      · exact Or.inl h
      · exact Or.inr (Or.inl ⟨rfl, h⟩)
  | attempt i x =>
    simp only [step] at h
    cases hi : s.attempts[i]? with
    | none => simp [hi] at h; exact Or.inl h
    | some pc0 =>
      rcases hr : stepAttempt qrEncode x s.m pc0 with ⟨m1, _ | pc1⟩
      · simp [hi, hr] at h
        exact Or.inl (List.mem_of_mem_eraseIdx h)
      · simp [hi, hr] at h
        rcases List.mem_or_eq_of_mem_set h with h | h
        · exact Or.inl h
        · exact Or.inr (Or.inr ⟨i, x, pc0, rfl, hi, by rw [hr, h]⟩)
  | event w e => exact Or.inl h
  | disconnectReq => exact Or.inl h
  | net up =>
    simp only [step] at h
    cases hc : s.m.Client with
    | none => simp [hc] at h; exact Or.inl h
    | some c => simp [hc] at h; exact Or.inl h

/-- The manager after a goroutine step. -/
theorem step_attempt_m (qrEncode : String → Option String) (s : Sys) (i : Nat) (x : Ext)
    (pc : Pc) (hi : s.attempts[i]? = some pc) :
    (step qrEncode s (Op.attempt i x)).m = (stepAttempt qrEncode x s.m pc).1 := by
  simp only [step, hi]
  rcases hr : stepAttempt qrEncode x s.m pc with ⟨m1, _ | pc1⟩ <;> rfl

/-- The goroutine that stepped and has not returned is found at its place. -/
theorem step_attempt_pc (qrEncode : String → Option String) (s : Sys) (i : Nat) (x : Ext)
    (pc pc1 : Pc) (hi : s.attempts[i]? = some pc)
    (hr : (stepAttempt qrEncode x s.m pc).2 = some pc1) :
    (step qrEncode s (Op.attempt i x)).attempts[i]? = some pc1 := by
  have hlt : i < s.attempts.length := by
    rcases Nat.lt_or_ge i s.attempts.length with h | h
    · exact h
    · rw [List.getElem?_eq_none h] at hi
      exact absurd hi (by simp)
  simp only [step, hi]
  rcases hr1 : stepAttempt qrEncode x s.m pc with ⟨m1, _ | pc2⟩
  · rw [hr1] at hr
    exact absurd hr (by simp)
  · rw [hr1] at hr
    have h12 : pc2 = pc1 := Option.some.inj hr
    subst h12
    show (s.attempts.set i pc2)[i]? = some pc2
    exact List.getElem?_set_self hlt

theorem StartInv_init (apiKey : String) : StartInv (Sys.init apiKey) := by
  constructor
  · intro h
    simp [Sys.init, NewManager] at h
  · intro pc hpc
    simp [Sys.init] at hpc

theorem StartInv_step (qrEncode : String → Option String) (s : Sys) (op : Op)
    (hinv : StartInv s) : StartInv (step qrEncode s op) := by
  constructor
  · intro h
    rcases step_Connected_origin qrEncode s op h with h0 | ⟨i, x, rfl⟩
    · exact step_keeps_StartTime qrEncode s op hinv (hinv.1 h0)
    · cases hi : s.attempts[i]? with
      | none =>
        simp only [step, hi] at h ⊢
        exact hinv.1 h
      | some pc =>
        rw [step_attempt_m qrEncode s i x pc hi] at h ⊢
        exact (stepAttempt_StartTime qrEncode x s.m pc hinv.1
          (hinv.2 pc (List.getElem?_mem hi))).2.1 h
  · intro pc hmem hpend
    rcases step_attempts qrEncode s op pc hmem with h0 | ⟨_, rfl⟩ | ⟨i, x, pc0, rfl, hi, hr⟩
    · exact step_keeps_StartTime qrEncode s op hinv (hinv.2 pc h0 hpend)
    · simp [Pc.pending] at hpend
    · rw [step_attempt_m qrEncode s i x pc0 hi]
      exact (stepAttempt_StartTime qrEncode x s.m pc0 hinv.1
        (hinv.2 pc0 (List.getElem?_mem hi))).2.2 pc hr hpend

/-- C4, as stated, fails: after a session that was connected and then dropped
by a Disconnected event, the status is Disconnected and the start time is still
the time of the connection. -/
theorem StartTime_kept_after_disconnect :
    (run demoEncode opsToConnected (Sys.init "k")).m.Status = "Connected" ∧
    (run demoEncode opsToConnected (Sys.init "k")).m.StartTime = some 7 ∧
    (run demoEncode opsToDropped (Sys.init "k")).m.Status = "Disconnected" ∧
    (run demoEncode opsToDropped (Sys.init "k")).m.StartTime = some 7 := by
  decide

/-- A goroutine step leaves the status as it is or writes the status of its
position. -/
theorem stepAttempt_Status (qrEncode : String → Option String) (x : Ext) (m : Manager)
    (pc : Pc) :
    (stepAttempt qrEncode x m pc).1.Status = m.Status ∨
      (stepAttempt qrEncode x m pc).1.Status = pc.target := by
  cases pc with
  | entry => simp [stepAttempt, Manager.updateStatus, Pc.target]
  | openStore =>
    cases hst : x.store <;> simp [stepAttempt, Manager.updateStatus, Pc.target, hst]
  | connect =>
    cases hc : m.Client with
    | none => simp [stepAttempt, hc]
    | some c =>
      cases hid : c.hasID <;> cases hce : x.connectErr <;>
        simp [stepAttempt, Manager.updateStatus, Pc.target, hc, hid, hce]
  | qrLoop =>
    cases hq : x.qr with
    | none => simp [stepAttempt, hq]
    | some evt =>
      by_cases hcode : evt.Event = "code"
      · cases he : qrEncode evt.Code <;>
          simp [stepAttempt, Manager.updateStatus, Pc.target, hq, hcode, he]
      · by_cases hsu : evt.Event = "success" <;>
          simp [stepAttempt, Manager.updateStatus, Pc.target, hq, hcode, hsu]
  | qrConnected => simp [stepAttempt, Manager.updateStatus, Pc.target]
  | connected => simp [stepAttempt, Manager.updateStatus, Pc.target]

/-- C7, as stated, fails: while the status is Waiting for QR Scan, a
Disconnected event from whatsmeow writes Disconnected, and `Disconnect()` on
the connected client does the same; the table has no edge from
WaitingForPairing to Disconnected.  A code item after the success item moves
Connected to Waiting for QR Scan, no edge either. -/
theorem status_change_off_table :
    (run demoEncode opsToWaiting (Sys.init "k")).m.Status = "Waiting for QR Scan" ∧
    (step demoEncode (run demoEncode opsToWaiting (Sys.init "k"))
      (Op.event demoMsgWorld Event.disconnected)).m.Status = "Disconnected" ∧
    (step demoEncode (run demoEncode opsToWaiting (Sys.init "k"))
      Op.disconnectReq).m.Status = "Disconnected" ∧
    tableEdge "Waiting for QR Scan" "Disconnected" = false ∧
    (run demoEncode (opsToWaiting ++ [Op.attempt 0 extSuccess, Op.attempt 0 demoExt])
      (Sys.init "k")).m.Status = "Connected" ∧
    (run demoEncode (opsToWaiting ++ [Op.attempt 0 extSuccess, Op.attempt 0 demoExt,
      Op.attempt 0 extCode]) (Sys.init "k")).m.Status = "Waiting for QR Scan" ∧
    tableEdge "Connected" "Waiting for QR Scan" = false := by
  decide

/-- A step that changes the status, operation by operation. -/
theorem step_Status_change (qrEncode : String → Option String) (s : Sys) (op : Op)
    (hne : (step qrEncode s op).m.Status ≠ s.m.Status) :
    match op with
    | Op.connectReq =>
      (step qrEncode s op).m.Status = "Connecting..." ∧
        s.m.Status ≠ "Connected" ∧ s.m.Status ≠ "Connecting..."
    | Op.attempt i _ =>
      ∃ pc, s.attempts[i]? = some pc ∧ (step qrEncode s op).m.Status = pc.target
    | Op.event _ e => e = Event.disconnected ∧ (step qrEncode s op).m.Status = "Disconnected"
    | Op.disconnectReq =>
      s.m.clientConnected = true ∧ (step qrEncode s op).m.Status = "Disconnected"
    | Op.net _ => False := by
  cases op with
  | connectReq =>
    by_cases hg : s.m.Status = "Connected" ∨ s.m.Status = "Connecting..."
    · simp [step, handleConnect, hg] at hne
    · simp only [not_or] at hg
      simp [step, handleConnect, hg]
  | attempt i x =>
    cases hi : s.attempts[i]? with
    | none => simp [step, hi] at hne
    | some pc =>
      refine ⟨pc, hi, ?_⟩
      rw [step_attempt_m qrEncode s i x pc hi] at hne ⊢
      rcases stepAttempt_Status qrEncode x s.m pc with h | h
      · exact absurd h hne
      · exact h
  | event w e =>
    cases e with
    | disconnected => simp [step, Manager.eventHandler, Manager.updateStatus]
    | message v => simp [step, Manager.eventHandler] at hne
    | other => simp [step, Manager.eventHandler] at hne
  | disconnectReq =>
    cases hc : s.m.Client with
    | none => simp [step, handleDisconnect, Manager.Disconnect, hc] at hne
    | some c =>
      cases hcc : c.connected
      · simp [step, handleDisconnect, Manager.Disconnect, hc, hcc] at hne
      · simp [step, handleDisconnect, Manager.Disconnect, Manager.clientConnected, hc, hcc]
  | net up =>
    cases hc : s.m.Client with
    | none => simp [step, hc] at hne
    | some c => simp [step, hc] at hne

/-- The writes of the status that do not look at the status. -/
theorem step_Status_unconditional (qrEncode : String → Option String) (s : Sys) :
    (∀ w, (step qrEncode s (Op.event w Event.disconnected)).m.Status = "Disconnected") ∧
    (s.m.clientConnected = true →
      (step qrEncode s Op.disconnectReq).m.Status = "Disconnected") ∧
    (∀ i x pc, s.attempts[i]? = some pc → pc = Pc.entry ∨ pc.pending = true →
      (step qrEncode s (Op.attempt i x)).m.Status = pc.target) := by
  refine ⟨?_, ?_, ?_⟩
  · intro w
    simp [step, Manager.eventHandler, Manager.updateStatus]
  · intro h
    cases hc : s.m.Client with
    | none => simp [Manager.clientConnected, hc] at h
    | some c =>
      have hcc : c.connected = true := by simpa [Manager.clientConnected, hc] using h
      simp [step, handleDisconnect, Manager.Disconnect, hc, hcc]
  · intro i x pc hi hpc
    rw [step_attempt_m qrEncode s i x pc hi]
    cases pc <;> simp [Pc.pending] at hpc <;>
      simp [stepAttempt, Manager.updateStatus, Pc.target]

/-- C7, amended: a step that changes the status writes the status fixed by the
operation, whatever the status was before.  `POST /connect` writes Connecting
and only when the status is neither Connected nor Connecting; a `ConnectClient`
goroutine writes Connecting in its first statement, Connection Failed on a
store or connect error, Waiting for QR Scan on a code item, Connected after a
success item or a direct connect; a whatsmeow event changes the status only if
it is the Disconnected event, to Disconnected; `Disconnect()` changes it only
if the client reports connected, to Disconnected; a change of the websocket
alone never changes it.  So the status becomes Connecting only through
`POST /connect` or the first statement of a `ConnectClient`, and becomes
Disconnected only through a Disconnected event or `Disconnect()`.  No write
looks at the status, the check of `POST /connect` apart: in every state, a
Disconnected event writes Disconnected, `Disconnect()` on a connected client
writes Disconnected, the first statement of `ConnectClient` writes Connecting,
a store error and a connect error write Connection Failed, a code item that
encodes writes Waiting for QR Scan with the encoded payload, a success item
and a direct connect that succeeds bring the goroutine to its write of
Connected, and that write writes Connected; `POST /connect` writes
Connecting from Disconnected and from Connection Failed and changes nothing in
Connected and Connecting; and every other step leaves the status as it is. -/
theorem status_change_by_op (qrEncode : String → Option String) (s : Sys) (op : Op)
    (hne : (step qrEncode s op).m.Status ≠ s.m.Status) :
    (match op with
    | Op.connectReq =>
      (step qrEncode s op).m.Status = "Connecting..." ∧
        s.m.Status ≠ "Connected" ∧ s.m.Status ≠ "Connecting..."
    | Op.attempt i _ =>
      ∃ pc, s.attempts[i]? = some pc ∧ (step qrEncode s op).m.Status = pc.target
    | Op.event _ e => e = Event.disconnected ∧ (step qrEncode s op).m.Status = "Disconnected"
    | Op.disconnectReq =>
      s.m.clientConnected = true ∧ (step qrEncode s op).m.Status = "Disconnected"
    | Op.net _ => False) ∧
    ((step qrEncode s op).m.Status = "Connecting..." →
      op = Op.connectReq ∨ ∃ i x, op = Op.attempt i x ∧ s.attempts[i]? = some Pc.entry) ∧
    ((step qrEncode s op).m.Status = "Disconnected" →
      (∃ w, op = Op.event w Event.disconnected) ∨ op = Op.disconnectReq) ∧
    (∀ s1 : Sys,
      (∀ w, (step qrEncode s1 (Op.event w Event.disconnected)).m.Status = "Disconnected") ∧
      (s1.m.clientConnected = true →
        (step qrEncode s1 Op.disconnectReq).m.Status = "Disconnected") ∧
      (∀ i x pc, s1.attempts[i]? = some pc → pc = Pc.entry ∨ pc.pending = true →
        (step qrEncode s1 (Op.attempt i x)).m.Status = pc.target) ∧
      (∀ i x, s1.attempts[i]? = some Pc.openStore →
        x.store = StoreResult.newErr ∨ x.store = StoreResult.deviceErr →
        (step qrEncode s1 (Op.attempt i x)).m.Status = "Connection Failed" ∧
        (step qrEncode s1 (Op.attempt i x)).m.QrCode = "") ∧
      (∀ i x hasID, s1.attempts[i]? = some Pc.openStore → x.store = StoreResult.device hasID →
        (step qrEncode s1 (Op.attempt i x)).m.Status = s1.m.Status) ∧
      (∀ i x, s1.attempts[i]? = some Pc.connect → s1.m.Client ≠ none → x.connectErr = true →
        (step qrEncode s1 (Op.attempt i x)).m.Status = "Connection Failed" ∧
        (step qrEncode s1 (Op.attempt i x)).m.QrCode = "") ∧
      (∀ i x, s1.attempts[i]? = some Pc.connect → x.connectErr = false →
        (step qrEncode s1 (Op.attempt i x)).m.Status = s1.m.Status) ∧
      (∀ i x evt q, s1.attempts[i]? = some Pc.qrLoop → x.qr = some evt →
        evt.Event = "code" → qrEncode evt.Code = some q →
        (step qrEncode s1 (Op.attempt i x)).m.Status = "Waiting for QR Scan" ∧
        (step qrEncode s1 (Op.attempt i x)).m.QrCode = q) ∧
      (∀ i x, s1.attempts[i]? = some Pc.qrLoop →
        (x.qr = none ∨ (∃ evt, x.qr = some evt ∧ evt.Event ≠ "code") ∨
          (∃ evt, x.qr = some evt ∧ qrEncode evt.Code = none)) →
        (step qrEncode s1 (Op.attempt i x)).m.Status = s1.m.Status) ∧
      (∀ i x, s1.attempts[i]? = none → step qrEncode s1 (Op.attempt i x) = s1) ∧
      (s1.m.Status = "Disconnected" ∨ s1.m.Status = "Connection Failed" →
        (step qrEncode s1 Op.connectReq).m.Status = "Connecting...") ∧
      (s1.m.Status = "Connected" ∨ s1.m.Status = "Connecting..." →
        step qrEncode s1 Op.connectReq = s1) ∧
      (∀ w e, e ≠ Event.disconnected → step qrEncode s1 (Op.event w e) = s1) ∧
      (s1.m.clientConnected = false → step qrEncode s1 Op.disconnectReq = s1) ∧
      (∀ up, (step qrEncode s1 (Op.net up)).m.Status = s1.m.Status) ∧
      (∀ i x evt, s1.attempts[i]? = some Pc.qrLoop → x.qr = some evt →
        evt.Event ≠ "code" → evt.Event = "success" →
        (step qrEncode s1 (Op.attempt i x)).attempts[i]? = some Pc.qrConnected) ∧
      (∀ i x c, s1.attempts[i]? = some Pc.connect → s1.m.Client = some c →
        c.hasID = true → x.connectErr = false →
        (step qrEncode s1 (Op.attempt i x)).attempts[i]? = some Pc.connected)) := by
  have hcore := step_Status_change qrEncode s op hne
  refine ⟨hcore, ?_, ?_, fun s1 => ⟨(step_Status_unconditional qrEncode s1).1,
    (step_Status_unconditional qrEncode s1).2.1, (step_Status_unconditional qrEncode s1).2.2,
    ?_, ?_, ?_, ?_, ?_, ?_, ?_, ?_, ?_, ?_, ?_, ?_, ?_, ?_⟩⟩
  · intro hnew
    cases op with
    | connectReq => exact Or.inl rfl
    | attempt i x =>
      obtain ⟨pc, hi, ht⟩ := hcore
      rw [hnew] at ht
      cases pc <;> simp [Pc.target] at ht
      exact Or.inr ⟨i, x, rfl, hi⟩
    | event w e =>
      obtain ⟨_, h2⟩ := hcore
      rw [hnew] at h2
      exact absurd h2 (by decide)
    | disconnectReq =>
      obtain ⟨_, h2⟩ := hcore
      rw [hnew] at h2
      exact absurd h2 (by decide)
    | net up => exact absurd hcore id
  · intro hnew
    cases op with
    | connectReq =>
      obtain ⟨h1, _⟩ := hcore
      rw [hnew] at h1
      exact absurd h1 (by decide)
    | attempt i x =>
      obtain ⟨pc, hi, ht⟩ := hcore
      rw [hnew] at ht
      cases pc <;> simp [Pc.target] at ht
    | event w e =>
      obtain ⟨h1, _⟩ := hcore
      exact Or.inl ⟨w, by rw [h1]⟩
    | disconnectReq => exact Or.inr rfl
    | net up => exact absurd hcore id
  · intro i x hi hst
    rw [step_attempt_m qrEncode s1 i x Pc.openStore hi]
    rcases hst with hst | hst <;> simp [stepAttempt, Manager.updateStatus, hst]
  · intro i x hasID hi hst
    rw [step_attempt_m qrEncode s1 i x Pc.openStore hi]
    simp [stepAttempt, hst]
  · intro i x hi hcl hce
    rw [step_attempt_m qrEncode s1 i x Pc.connect hi]
    cases hc : s1.m.Client with
    | none => exact absurd hc hcl
    | some c => cases hid : c.hasID <;> simp [stepAttempt, Manager.updateStatus, hc, hid, hce]
  · intro i x hi hce
    rw [step_attempt_m qrEncode s1 i x Pc.connect hi]
    cases hc : s1.m.Client with
    | none => simp [stepAttempt, hc]
    | some c => cases hid : c.hasID <;> simp [stepAttempt, hc, hid, hce]
  · intro i x evt q hi hq hcode he
    rw [step_attempt_m qrEncode s1 i x Pc.qrLoop hi]
    simp [stepAttempt, Manager.updateStatus, hq, hcode, he]
  · intro i x hi hcase
    rw [step_attempt_m qrEncode s1 i x Pc.qrLoop hi]
    rcases hcase with hq | ⟨evt, hq, hcode⟩ | ⟨evt, hq, he⟩
    · simp [stepAttempt, hq]
    · by_cases hsu : evt.Event = "success" <;> simp [stepAttempt, hq, hcode, hsu]
    · by_cases hcode : evt.Event = "code"
      · simp [stepAttempt, hq, hcode, he]
      · by_cases hsu : evt.Event = "success" <;> simp [stepAttempt, hq, hcode, hsu]
  · intro i x hi
    simp [step, hi]
  · intro hst
    rcases hst with hst | hst <;> simp [step, handleConnect, hst]
  · intro hst
    simp [step, handleConnect, hst]
  · intro w e he
    cases e with
    | disconnected => exact absurd rfl he
    | message v => rfl
    | other => rfl
  · intro hcl
    cases hc : s1.m.Client with
    | none => simp [step, handleDisconnect, Manager.Disconnect, hc]
    | some c =>
      have hcc : c.connected = false := by simpa [Manager.clientConnected, hc] using hcl
      simp [step, handleDisconnect, Manager.Disconnect, hc, hcc]
  · intro up
    cases hc : s1.m.Client with
    | none => simp [step, hc]
    | some c => simp [step, hc]
  · intro i x evt hi hq hcode hsu
    apply step_attempt_pc qrEncode s1 i x Pc.qrLoop Pc.qrConnected hi
    simp [stepAttempt, hq, hcode, hsu]
  · intro i x c hi hc hid hce
    apply step_attempt_pc qrEncode s1 i x Pc.connect Pc.connected hi
    simp [stepAttempt, hc, hid, hce]

/-- C7, amended, at a concrete input: the Disconnected event received while
the status is Waiting for QR Scan. -/
theorem status_change_by_op_witness :
    (step demoEncode (run demoEncode opsToWaiting (Sys.init "k"))
      (Op.event demoMsgWorld Event.disconnected)).m.Status
      ≠ (run demoEncode opsToWaiting (Sys.init "k")).m.Status ∧
    (step demoEncode (run demoEncode opsToWaiting (Sys.init "k"))
      (Op.event demoMsgWorld Event.disconnected)).m.Status = "Disconnected" :=
  ⟨by decide,
    (status_change_by_op demoEncode (run demoEncode opsToWaiting (Sys.init "k"))
      (Op.event demoMsgWorld Event.disconnected) (by decide)).1.2⟩

/-! ### The gate of `handleConnect` and the status Waiting for QR Scan -/

/-- C2, the code at the failing input: the check of `handleConnect` names
Connected and Connecting only.  While the first `ConnectClient` waits on its QR
channel with status Waiting for QR Scan, a second `POST /connect` passes the
check and starts a second `ConnectClient`: two are running.  The same holds
from every state whose status is Waiting for QR Scan. -/
theorem second_ConnectClient_while_waiting :
    (run demoEncode opsToWaiting (Sys.init "k")).m.Status = "Waiting for QR Scan" ∧
    (run demoEncode opsToWaiting (Sys.init "k")).attempts = [Pc.qrLoop] ∧
    (run demoEncode (opsToWaiting ++ [Op.connectReq]) (Sys.init "k")).attempts
      = [Pc.qrLoop, Pc.entry] ∧
    (∀ s : Sys, s.m.Status = "Waiting for QR Scan" →
      (handleConnect s).attempts.length = s.attempts.length + 1) := by
  refine ⟨by decide, by decide, by decide, ?_⟩
  intro s hs
  simp [handleConnect, hs]

/-- C3, the code at the failing input: `handleConnect` writes the status and
not the payload.  Passing the check from Waiting for QR Scan, it leaves the
status at Connecting with the pairing payload still set, and that is the state
its response is rendered from. -/
theorem payload_kept_by_handleConnect :
    (run demoEncode opsToWaiting (Sys.init "k")).m.Status = "Waiting for QR Scan" ∧
    (run demoEncode opsToWaiting (Sys.init "k")).m.QrCode = "iVBORw0KGgo2@abc" ∧
    (run demoEncode (opsToWaiting ++ [Op.connectReq]) (Sys.init "k")).m.Status
      = "Connecting..." ∧
    (run demoEncode (opsToWaiting ++ [Op.connectReq]) (Sys.init "k")).m.QrCode
      = "iVBORw0KGgo2@abc" := by
  decide

/-! ### `ConnectClient` run at once and run step by step agree -/

theorem run_append (qrEncode : String → Option String) (ops1 ops2 : List Op) (s : Sys) :
    run qrEncode (ops1 ++ ops2) s = run qrEncode ops2 (run qrEncode ops1 s) := by
  simp [run, List.foldl_append]

/-- With no goroutine running, goroutine steps do nothing. -/
theorem run_attempt_none (qrEncode : String → Option String) (xs : List Ext) (m : Manager) :
    run qrEncode (xs.map (Op.attempt 0)) { m := m, attempts := [] }
      = { m := m, attempts := [] } := by
  induction xs with
  | nil => rfl
  | cons x xs ih =>
    rw [List.map_cons, run_cons]
    simpa [step] using ih

/-- A goroutine about to write Connected after a direct connect writes it and
returns, whatever the remaining answers. -/
theorem run_loopScript_connected (qrEncode : String → Option String) (w : ConnWorld)
    (items : List (QRChannelItem × Nat)) (m : Manager) :
    run qrEncode ((loopScript w items).map (Op.attempt 0))
        { m := m, attempts := [Pc.connected] }
      = { m := m.updateStatus "Connected" "", attempts := [] } := by
  cases items with
  | nil => simp [loopScript, run, step, stepAttempt]
  | cons p items =>
    by_cases hcode : p.1.Event = "code"
    · simp only [loopScript, hcode, if_true, List.map_append, List.map_cons, List.map_nil,
        List.cons_append, List.nil_append, run_cons]
      simpa [step, stepAttempt] using run_attempt_none qrEncode (loopScript w items) _
    · by_cases hsu : p.1.Event = "success"
      · simp only [loopScript, hcode, hsu, if_true, if_false, List.map_append, List.map_cons,
          List.map_nil, List.cons_append, List.nil_append, run_cons]
        simpa [run_cons, step, stepAttempt] using run_attempt_none qrEncode (loopScript w items) _
      · simp only [loopScript, hcode, hsu, if_false, List.map_append, List.map_cons,
          List.map_nil, List.cons_append, List.nil_append, run_cons]
        simpa [step, stepAttempt] using run_attempt_none qrEncode (loopScript w items) _

/-- A goroutine at its receive on the QR channel, run to the close of the
channel, computes `qrLoop`. -/
theorem run_loopScript_qrLoop (qrEncode : String → Option String) (w : ConnWorld)
    (items : List (QRChannelItem × Nat)) (m : Manager) :
    run qrEncode ((loopScript w items).map (Op.attempt 0))
        { m := m, attempts := [Pc.qrLoop] }
      = { m := qrLoop qrEncode items m, attempts := [] } := by
  induction items generalizing m with
  | nil => simp [loopScript, run, step, stepAttempt, qrLoop]
  | cons p items ih =>
    rw [qrLoop_cons]
    by_cases hcode : p.1.Event = "code"
    · simp only [loopScript, hcode, if_true, List.map_append, List.map_cons, List.map_nil,
        List.cons_append, List.nil_append, run_cons]
      cases he : qrEncode p.1.Code <;>
        simpa [step, stepAttempt, qrBody, hcode, he] using ih _
    · by_cases hsu : p.1.Event = "success"
      · simp only [loopScript, hcode, hsu, if_true, if_false, List.map_append, List.map_cons,
          List.map_nil, List.cons_append, List.nil_append, run_cons]
        simpa [run_cons, step, stepAttempt, qrBody, hcode, hsu, Manager.updateStatus] using ih _
      · simp only [loopScript, hcode, hsu, if_false, List.map_append, List.map_cons,
          List.map_nil, List.cons_append, List.nil_append, run_cons]
        simpa [step, stepAttempt, qrBody, hcode, hsu] using ih _

/-- The goroutine started by `handleConnect`, run alone through the answers of
the world `w`, returns and leaves the manager `ConnectClient` computes. -/
theorem run_script (qrEncode : String → Option String) (w : ConnWorld) (m : Manager) :
    run qrEncode (script w) { m := m, attempts := [Pc.entry] }
      = { m := m.ConnectClient qrEncode w, attempts := [] } := by
  simp only [script, List.map_append, List.map_cons, List.map_nil, List.cons_append,
    List.nil_append, run_cons]
  cases hst : w.store with
  | newErr =>
    simpa [step, stepAttempt, Manager.ConnectClient, hst]
      using run_attempt_none qrEncode (loopScript w w.qrItems) _
  | deviceErr =>
    simpa [step, stepAttempt, Manager.ConnectClient, hst]
      using run_attempt_none qrEncode (loopScript w w.qrItems) _
  | device hasID =>
    cases hasID <;> cases hce : w.connectErr
    · simpa [step, stepAttempt, Manager.ConnectClient, Manager.updateStatus, hst, hce]
        using run_loopScript_qrLoop qrEncode w w.qrItems _
    · simpa [step, stepAttempt, Manager.ConnectClient, Manager.updateStatus, hst, hce]
        using run_attempt_none qrEncode (loopScript w w.qrItems) _
    · simpa [step, stepAttempt, Manager.ConnectClient, Manager.updateStatus, hst, hce]
        using run_loopScript_connected qrEncode w w.qrItems _
    · simpa [step, stepAttempt, Manager.ConnectClient, Manager.updateStatus, hst, hce]
        using run_attempt_none qrEncode (loopScript w w.qrItems) _

/-! ### The pairing payload in reachable states -/

/-- What one step of a goroutine does to the status and the payload, for an
encoder that never yields the empty string. -/
theorem stepAttempt_payload (qrEncode : String → Option String)
    (henc : ∀ code q, qrEncode code = some q → q ≠ "") (x : Ext) (m : Manager) (pc : Pc) :
    ((stepAttempt qrEncode x m pc).1.Status = m.Status ∧
      (stepAttempt qrEncode x m pc).1.QrCode = m.QrCode ∧ pc ≠ Pc.entry) ∨
    ((stepAttempt qrEncode x m pc).1.QrCode = "" ∧
      (stepAttempt qrEncode x m pc).1.Status ≠ "Waiting for QR Scan") ∨
    ((stepAttempt qrEncode x m pc).1.Status = "Waiting for QR Scan" ∧
      (stepAttempt qrEncode x m pc).1.QrCode ≠ "") := by
  cases pc with
  | entry => simp [stepAttempt, Manager.updateStatus]
  | openStore =>
    cases hst : x.store <;> simp [stepAttempt, Manager.updateStatus, hst]
  | connect =>
    cases hc : m.Client with
    | none => simp [stepAttempt, hc]
    | some c =>
      cases hid : c.hasID <;> cases hce : x.connectErr <;>
        simp [stepAttempt, Manager.updateStatus, hc, hid, hce]
  | qrLoop =>
    cases hq : x.qr with
    | none => simp [stepAttempt, hq]
    | some evt =>
      by_cases hcode : evt.Event = "code"
      · cases he : qrEncode evt.Code with
        | none => simp [stepAttempt, hq, hcode, he]
        | some q =>
          have hq0 := henc evt.Code q he
          simp [stepAttempt, Manager.updateStatus, hq, hcode, he, hq0]
      · by_cases hsu : evt.Event = "success" <;>
          simp [stepAttempt, Manager.updateStatus, hq, hcode, hsu]
  | qrConnected => simp [stepAttempt, Manager.updateStatus]
  | connected => simp [stepAttempt, Manager.updateStatus]

/-- A goroutine that has not started stays in the list when another one steps. -/
theorem step_attempt_keeps_entry (qrEncode : String → Option String) (s : Sys) (i : Nat)
    (x : Ext) (pc : Pc) (hi : s.attempts[i]? = some pc) (hpc : pc ≠ Pc.entry)
    (hmem : Pc.entry ∈ s.attempts) :
    Pc.entry ∈ (step qrEncode s (Op.attempt i x)).attempts := by
  obtain ⟨j, hj⟩ := List.getElem?_of_mem hmem
  have hji : i ≠ j := by
    intro h
    rw [h, hj] at hi
    exact hpc (Option.some.inj hi).symm
  simp only [step, hi]
  rcases hr : stepAttempt qrEncode x s.m pc with ⟨m1, _ | pc1⟩
  · exact List.mem_eraseIdx_iff_getElem?.mpr ⟨j, fun h => hji h.symm, hj⟩
  · apply List.getElem?_mem (n := j)
    show (s.attempts.set i pc1)[j]? = some Pc.entry
    rw [List.getElem?_set_ne hji]
    exact hj

theorem PayloadInv_init (apiKey : String) : PayloadInv (Sys.init apiKey) := by
  constructor <;> simp [Sys.init, NewManager]

theorem PayloadInv_step (qrEncode : String → Option String)
    (henc : ∀ code q, qrEncode code = some q → q ≠ "") (s : Sys) (op : Op)
    (hinv : PayloadInv s) : PayloadInv (step qrEncode s op) := by
  cases op with
  | connectReq =>
    by_cases hg : s.m.Status = "Connected" ∨ s.m.Status = "Connecting..."
    · simpa [step, handleConnect, hg] using hinv
    · constructor <;> simp [step, handleConnect, hg]
  | attempt i x =>
    cases hi : s.attempts[i]? with
    | none => simpa [step, hi] using hinv
    | some pc =>
      have hm := step_attempt_m qrEncode s i x pc hi
      rcases stepAttempt_payload qrEncode henc x s.m pc with ⟨h1, h2, h3⟩ | ⟨h1, h2⟩ | ⟨h1, h2⟩
      · constructor
        · rw [hm, h1, h2]
          exact hinv.1
        · rw [hm, h1, h2]
          intro hq
          rcases hinv.2 hq with h | ⟨h, hmem⟩
          · exact Or.inl h
          · exact Or.inr ⟨h, step_attempt_keeps_entry qrEncode s i x pc hi h3 hmem⟩
      · constructor
        · rw [hm]
          intro h
          exact absurd h h2
        · rw [hm]
          intro h
          exact absurd h1 h
      · constructor
        · rw [hm]
          intro _
          exact h2
        · rw [hm]
          intro _
          exact Or.inl h1
  | event w e =>
    cases e with
    | disconnected =>
      constructor <;> simp [step, Manager.eventHandler, Manager.updateStatus]
    | message v => exact hinv
    | other => exact hinv
  | disconnectReq =>
    cases hc : s.m.Client with
    | none => simpa [PayloadInv, step, handleDisconnect, Manager.Disconnect, hc] using hinv
    | some c =>
      cases hcc : c.connected
      · simpa [PayloadInv, step, handleDisconnect, Manager.Disconnect, hc, hcc] using hinv
      · constructor <;> simp [step, handleDisconnect, Manager.Disconnect, hc, hcc]
  | net up =>
    cases hc : s.m.Client with
    | none => simpa [PayloadInv, step, hc] using hinv
    | some c => simpa [PayloadInv, step, hc] using hinv

/-- In every reachable state the payload is non-empty while the status is
Waiting for QR Scan; outside that status it is non-empty only in the state
`handleConnect` leaves when it let a request through in Waiting for QR Scan. -/
theorem PayloadInv_reachable (qrEncode : String → Option String)
    (henc : ∀ code q, qrEncode code = some q → q ≠ "") (s : Sys)
    (h : Reachable qrEncode s) : PayloadInv s :=
  Reachable.induct qrEncode PayloadInv PayloadInv_init (PayloadInv_step qrEncode henc) s h

/-! ### The start time, write by write -/

/-- The one goroutine step that writes the start time: it writes the reading of
the clock, it is the receive of the success item or the direct connect that
succeeded, and it leaves the goroutine about to write Connected.  Every other
goroutine step leaves the start time as it is. -/
theorem stepAttempt_StartTime_cases (qrEncode : String → Option String) (x : Ext)
    (m : Manager) (pc : Pc) :
    ((stepAttempt qrEncode x m pc).1.StartTime = m.StartTime ∧
      ∀ pc1, (stepAttempt qrEncode x m pc).2 = some pc1 → pc1.pending = false) ∨
    ((stepAttempt qrEncode x m pc).1.StartTime = some x.now ∧
      (stepAttempt qrEncode x m pc).1.Status = m.Status ∧
      ((pc = Pc.qrLoop ∧ ∃ evt, x.qr = some evt ∧ evt.Event = "success") ∨
        (pc = Pc.connect ∧ x.connectErr = false ∧ ∃ c, m.Client = some c ∧ c.hasID = true)) ∧
      ∃ pc1, (stepAttempt qrEncode x m pc).2 = some pc1 ∧ pc1.pending = true) := by
  cases pc with
  | entry => simp [stepAttempt, Manager.updateStatus, Pc.pending]
  | openStore =>
    cases hst : x.store <;> simp [stepAttempt, Manager.updateStatus, Pc.pending, hst]
  | connect =>
    cases hc : m.Client with
    | none => simp [stepAttempt, hc]
    | some c =>
      cases hid : c.hasID <;> cases hce : x.connectErr <;>
        simp [stepAttempt, Manager.updateStatus, Pc.pending, hc, hid, hce]
  | qrLoop =>
    cases hq : x.qr with
    | none => simp [stepAttempt, hq]
    | some evt =>
      by_cases hcode : evt.Event = "code"
      · cases he : qrEncode evt.Code <;>
          simp [stepAttempt, Manager.updateStatus, Pc.pending, hq, hcode, he]
      · by_cases hsu : evt.Event = "success" <;>
          simp [stepAttempt, Manager.updateStatus, Pc.pending, hq, hcode, hsu]
  | qrConnected => simp [stepAttempt, Manager.updateStatus, Pc.pending]
  | connected => simp [stepAttempt, Manager.updateStatus]

/-- What a step does to the start time, in every state: it leaves it, or it is
the goroutine step that writes the reading of the clock. -/
theorem step_StartTime_cases (qrEncode : String → Option String) (s : Sys) (op : Op) :
    (step qrEncode s op).m.StartTime = s.m.StartTime ∨
    ∃ i x, op = Op.attempt i x ∧
      (step qrEncode s op).m.StartTime = some x.now ∧
      (step qrEncode s op).m.Status = s.m.Status ∧
      ((s.attempts[i]? = some Pc.qrLoop ∧ ∃ evt, x.qr = some evt ∧ evt.Event = "success") ∨
        (s.attempts[i]? = some Pc.connect ∧ x.connectErr = false ∧
          ∃ c, s.m.Client = some c ∧ c.hasID = true)) ∧
      ∃ pc1, (step qrEncode s op).attempts[i]? = some pc1 ∧ pc1.pending = true := by
  cases op with
  | connectReq =>
    by_cases hg : s.m.Status = "Connected" ∨ s.m.Status = "Connecting..." <;>
      simp [step, handleConnect, hg]
  | attempt i x =>
    cases hi : s.attempts[i]? with
    | none => simp [step, hi]
    | some pc =>
      rcases stepAttempt_StartTime_cases qrEncode x s.m pc with ⟨h, _⟩ | ⟨h1, h2, h3, pc1, h4, h5⟩
      · left
        rw [step_attempt_m qrEncode s i x pc hi]
        exact h
      · right
        refine ⟨i, x, rfl, ?_, ?_, ?_, pc1, step_attempt_pc qrEncode s i x pc pc1 hi h4, h5⟩
        · rw [step_attempt_m qrEncode s i x pc hi]
          exact h1
        · rw [step_attempt_m qrEncode s i x pc hi]
          exact h2
        · rcases h3 with ⟨hpc, h⟩ | ⟨hpc, h⟩
          · exact Or.inl ⟨by rw [← hpc]; exact hi, h⟩
          · exact Or.inr ⟨by rw [← hpc]; exact hi, h⟩
  | event w e =>
    cases e <;> simp [step, Manager.eventHandler, Manager.updateStatus]
  | disconnectReq =>
    cases hc : s.m.Client with
    | none => simp [step, handleDisconnect, Manager.Disconnect, hc]
    | some c =>
      cases hcc : c.connected <;> simp [step, handleDisconnect, Manager.Disconnect, hc, hcc]
  | net up =>
    cases hc : s.m.Client with
    | none => simp [step, hc]
    | some c => simp [step, hc]

/-- Operations that bring no success leave the start time as it is. -/
theorem run_keeps_StartTime (qrEncode : String → Option String) (ops : List Op) (s : Sys)
    (h : ∀ op ∈ ops, op.bringsNoSuccess = true) :
    (run qrEncode ops s).m.StartTime = s.m.StartTime := by
  induction ops generalizing s with
  | nil => rfl
  | cons op ops ih =>
    rw [run_cons, ih _ (fun o ho => h o (List.mem_cons_of_mem _ ho))]
    have hop := h op (List.mem_cons_self _ _)
    rcases step_StartTime_cases qrEncode s op with h0 | ⟨i, x, rfl, _, _, h3, _⟩
    · exact h0
    · simp only [Op.bringsNoSuccess, Bool.and_eq_true] at hop
      rcases h3 with ⟨_, evt, hq, hsu⟩ | ⟨_, hce, _⟩
      · have h2 := hop.2
        rw [hq] at h2
        simp [hsu] at h2
      · rw [hce] at hop
        exact absurd hop.1 (by simp)

/-- C4, amended: in every reachable state, a status of Connected comes with a
start time that is set, and no operation clears the start time.  The start time
changes in one way only: the goroutine step that receives the success item, or
whose direct connect succeeds, writes the reading of the clock, leaves the
status, and leaves the goroutine about to write Connected; a goroutine gets to
its write of Connected by that step only, and the write of Connected itself
leaves the start time.  Every other step — a Disconnected event, any other
event, `Disconnect()`, `POST /connect`, a websocket change, the step by which a
goroutine returns (after a store or connect error, at the close of the channel)
— leaves the start time equal to what it was, so through any sequence of
operations that bring no success it still holds the time of the last
successful connection. -/
theorem StartTime_set_while_Connected (qrEncode : String → Option String) (s : Sys)
    (h : Reachable qrEncode s) :
    (s.m.Status = "Connected" → s.m.StartTime.isSome = true) ∧
    (∀ op, s.m.StartTime.isSome = true → (step qrEncode s op).m.StartTime.isSome = true) ∧
    (∀ op, (step qrEncode s op).m.StartTime = s.m.StartTime ∨
      ∃ i x, op = Op.attempt i x ∧
        (step qrEncode s op).m.StartTime = some x.now ∧
        (step qrEncode s op).m.Status = s.m.Status ∧
        ((s.attempts[i]? = some Pc.qrLoop ∧ ∃ evt, x.qr = some evt ∧ evt.Event = "success") ∨
          (s.attempts[i]? = some Pc.connect ∧ x.connectErr = false ∧
            ∃ c, s.m.Client = some c ∧ c.hasID = true)) ∧
        ∃ pc1, (step qrEncode s op).attempts[i]? = some pc1 ∧ pc1.pending = true) ∧
    (∀ i x pc pc1, s.attempts[i]? = some pc →
      (stepAttempt qrEncode x s.m pc).2 = some pc1 → pc1.pending = true →
      (step qrEncode s (Op.attempt i x)).m.StartTime = some x.now) ∧
    (∀ i x pc, s.attempts[i]? = some pc → pc.pending = true →
      (step qrEncode s (Op.attempt i x)).m.Status = "Connected" ∧
      (step qrEncode s (Op.attempt i x)).m.StartTime = s.m.StartTime ∧
      s.m.StartTime.isSome = true) ∧
    (∀ op, (step qrEncode s op).m.Status = "Connected" → s.m.Status ≠ "Connected" →
      ∃ i x pc, op = Op.attempt i x ∧ s.attempts[i]? = some pc ∧ pc.pending = true) ∧
    (∀ w e, (step qrEncode s (Op.event w e)).m.StartTime = s.m.StartTime) ∧
    (step qrEncode s Op.disconnectReq).m.StartTime = s.m.StartTime ∧
    (step qrEncode s Op.connectReq).m.StartTime = s.m.StartTime ∧
    (∀ i x pc, s.attempts[i]? = some pc → (stepAttempt qrEncode x s.m pc).2 = none →
      (step qrEncode s (Op.attempt i x)).m.StartTime = s.m.StartTime) ∧
    (∀ ops, (∀ op ∈ ops, op.bringsNoSuccess = true) →
      (run qrEncode ops s).m.StartTime = s.m.StartTime) := by
  have hinv : StartInv s := Reachable.induct qrEncode StartInv StartInv_init
    (StartInv_step qrEncode) s h
  refine ⟨hinv.1, fun op hs => step_keeps_StartTime qrEncode s op hinv hs,
    fun op => step_StartTime_cases qrEncode s op, ?_, ?_, ?_, ?_, ?_, ?_, ?_,
    fun ops hops => run_keeps_StartTime qrEncode ops s hops⟩
  · intro i x pc pc1 hi hr hp
    rw [step_attempt_m qrEncode s i x pc hi]
    rcases stepAttempt_StartTime_cases qrEncode x s.m pc with ⟨_, h2⟩ | ⟨h1, _⟩
    · rw [h2 pc1 hr] at hp
      exact absurd hp (by simp)
    · exact h1
  · intro i x pc hi hp
    rw [step_attempt_m qrEncode s i x pc hi]
    refine ⟨?_, ?_, hinv.2 pc (List.getElem?_mem hi) hp⟩
    · cases pc <;> simp [Pc.pending] at hp <;> simp [stepAttempt, Manager.updateStatus]
    · cases pc <;> simp [Pc.pending] at hp <;> simp [stepAttempt, Manager.updateStatus]
  · intro op hnew hold
    have hne : (step qrEncode s op).m.Status ≠ s.m.Status := by
      rw [hnew]
      exact fun h => hold h.symm
    have hcore := step_Status_change qrEncode s op hne
    cases op with
    | connectReq =>
      obtain ⟨h1, _⟩ := hcore
      rw [hnew] at h1
      exact absurd h1 (by decide)
    | attempt i x =>
      obtain ⟨pc, hi, ht⟩ := hcore
      rw [hnew] at ht
      refine ⟨i, x, pc, rfl, hi, ?_⟩
      cases pc <;> simp [Pc.target] at ht <;> rfl
    | event w e =>
      obtain ⟨_, h2⟩ := hcore
      rw [hnew] at h2
      exact absurd h2 (by decide)
    | disconnectReq =>
      obtain ⟨_, h2⟩ := hcore
      rw [hnew] at h2
      exact absurd h2 (by decide)
    | net up => exact absurd hcore id
  · intro w e
    rcases step_StartTime_cases qrEncode s (Op.event w e) with h0 | ⟨i, x, hop, _⟩
    · exact h0
    · exact absurd hop (by simp)
  · rcases step_StartTime_cases qrEncode s Op.disconnectReq with h0 | ⟨i, x, hop, _⟩
    · exact h0
    · exact absurd hop (by simp)
  · rcases step_StartTime_cases qrEncode s Op.connectReq with h0 | ⟨i, x, hop, _⟩
    · exact h0
    · exact absurd hop (by simp)
  · intro i x pc hi hret
    rw [step_attempt_m qrEncode s i x pc hi]
    rcases stepAttempt_StartTime_cases qrEncode x s.m pc with ⟨h0, _⟩ | ⟨_, _, _, pc1, h4, _⟩
    · exact h0
    · rw [hret] at h4
      exact absurd h4 (by simp)

/-- C4, amended, at a concrete input: the state after a successful pairing has
status Connected and start time 7; a Disconnected event, a `Disconnect()`, a new
`POST /connect` and its failing `ConnectClient` later, the status is Connection
Failed and the start time is still 7. -/
theorem StartTime_set_while_Connected_witness :
    (run demoEncode opsToConnected (Sys.init "k")).m.Status = "Connected" ∧
    (run demoEncode opsToConnected (Sys.init "k")).m.StartTime.isSome = true ∧
    (run demoEncode opsDropAndFail (run demoEncode opsToConnected (Sys.init "k"))).m.Status
      = "Connection Failed" ∧
    (run demoEncode opsDropAndFail (run demoEncode opsToConnected (Sys.init "k"))).m.StartTime
      = (run demoEncode opsToConnected (Sys.init "k")).m.StartTime ∧
    (run demoEncode opsToConnected (Sys.init "k")).m.StartTime = some 7 :=
  have h := StartTime_set_while_Connected demoEncode
    (run demoEncode opsToConnected (Sys.init "k")) ⟨"k", opsToConnected, rfl⟩
  ⟨by decide, h.1 (by decide), by decide,
    h.2.2.2.2.2.2.2.2.2.2 opsDropAndFail
      (by simp [opsDropAndFail, Op.bringsNoSuccess, extFail]),
    by decide⟩

end ZapBot
